import Mathlib

/-!
Verification of the pySOT `test_problems` module (benchmark objective
functions for global optimization) against its natural-language
specification.

The module is shallowly embedded: Python floats are modelled as real
numbers, NumPy arrays as `List ℝ`, Python ints as `ℤ`, raised exceptions
as `Except.error`.  The arithmetic in the source is Python-2 arithmetic,
as the specification directs: `/` between ints is floor division, and
`xrange` behaves like `range`.  Scalar division between Python floats
raises `ZeroDivisionError` on a zero denominator; NumPy float division
does not raise.  The single place where a pure-Python float division has
a reachable zero denominator (`SchafferF7`'s normalizer) is modelled with
an explicit error branch.
-/

open Real

/-- Model of `np.arange(a, b)`: the integers `a, a+1, ..., b-1`. -/
def arange (a b : ℤ) : List ℤ :=
  (List.range (b - a).toNat).map (fun (k : ℕ) => a + (k : ℤ))

/-- Model of `np.amax` of a vector of integers (0 on the empty vector, which the
source never queries: `validate` guards every `amax` call by nonemptiness). -/
def amax : List ℤ → ℤ
  | [] => 0
  | x :: xs => xs.foldl max x

/-- Model of `np.amin` of a vector of integers (0 on the empty vector). -/
def amin : List ℤ → ℤ
  | [] => 0
  | x :: xs => xs.foldl min x

/-- The data carried by every problem object in `test_problems.py`:
`dim`, `xlow`, `xup`, `integer`, `continuous`, `info`, `min`,
`constraints`, plus a flag recording whether the class defines an
`eval_ineq_constraints` method (what `hasattr(obj, 'eval_ineq_constraints')`
observes).  Field order: dim, xlow, xup, integer, continuous, info, min,
constraints, hasIneqMethod. -/
structure Problem where
  dim : ℤ
  xlow : List ℝ
  xup : List ℝ
  integer : List ℤ
  continuous : List ℤ
  info : String
  min : ℝ
  constraints : Bool
  hasIneqMethod : Bool

/-- The `validate` routine: conjunction of all its assertions.  The
attribute-existence and container-type assertions are structural in this
embedding (every `Problem` has every field); the remaining assertions are
translated one by one:
* `hasattr(obj, 'eval_ineq_constraints')` when `obj.constraints`;
* `obj.dim > 0` (an `int` by the `dim : ℤ` field type);
* `len(obj.xlow) == obj.dim and len(obj.xup) == obj.dim`;
* `all(obj.xlow[i] < obj.xup[i] for i in range(obj.dim))`;
* if `len(obj.integer) > 0`: `np.amax(obj.integer) < obj.dim and
  np.amin(obj.integer) >= 0`; same for `obj.continuous`;
* `len(np.intersect1d(obj.continuous, obj.integer)) == 0` (no common
  element);
* `len(obj.continuous) + len(obj.integer) == obj.dim`. -/
def validate (obj : Problem) : Prop :=
  (obj.constraints = true → obj.hasIneqMethod = true) ∧
  0 < obj.dim ∧
  ((obj.xlow.length : ℤ) = obj.dim ∧ (obj.xup.length : ℤ) = obj.dim) ∧
  (∀ i : ℕ, (i : ℤ) < obj.dim → obj.xlow.getD i 0 < obj.xup.getD i 0) ∧
  (obj.integer ≠ [] → amax obj.integer < obj.dim ∧ 0 ≤ amin obj.integer) ∧
  (obj.continuous ≠ [] → amax obj.continuous < obj.dim ∧ 0 ≤ amin obj.continuous) ∧
  (obj.continuous.inter obj.integer).length = 0 ∧
  ((obj.continuous.length : ℤ) + (obj.integer.length : ℤ) = obj.dim)

/-- Model of a `random.Random` instance: the stream of `uniform(0, 1)`
draws it will produce, together with the current position in that stream.
Drawing advances the position — the generator's internal state. -/
structure PyRandom where
  stream : ℕ → ℝ
  pos : ℕ

/-- Model of `prng.uniform(0, 1)`: returns the next draw and the advanced generator. -/
def PyRandom.uniform01 (g : PyRandom) : ℝ × PyRandom :=
  (g.stream g.pos, ⟨g.stream, g.pos + 1⟩)

/-- Python sequence read `x[i]` for a possibly negative index
(`Exponential.objfunction` reads `x[i-1]`, which is `x[-1]`, the last
element, at `i = 0`). -/
def pyGet (x : List ℝ) (i : ℤ) : ℝ :=
  if i < 0 then x.getD (x.length - (-i).toNat) 0 else x.getD i.toNat 0

/-! ## Constructors

Each `C.init` builds the object the Python `__init__` builds (the record
fields in declaration order: dim, xlow, xup, integer, continuous, info,
min, constraints, hasIneqMethod).  `np.zeros(d)`/`c * np.ones(d)` become
`List.replicate d.toNat c`; a negative `d` makes `np.ones` raise, and a
non-positive `d` fails `validate`, so theorems about constructed
instances carry the hypothesis `1 ≤ d` ("permitted dim").
`Quartic.__init__` additionally seeds a fresh `random.Random` from the
wall clock; that ambient generator is passed to `Quartic.objfunction`
explicitly. -/

/-- Translation of `Hartman3.__init__(dim=3)`.  The body ignores its `dim` argument and
hard-codes dimension 3. -/
def Hartman3.init (_dim : ℤ) : Problem :=
  ⟨3, List.replicate 3 0, List.replicate 3 1, [], arange 0 3,
    "3-dimensional Hartman function \nGlobal optimum: f(0.114614,0.555649,0.852547) = -3.86278",
    -3.86278, false, false⟩

/-- Translation of `Rastrigin.__init__(dim=10)`. -/
def Rastrigin.init (d : ℤ) : Problem :=
  ⟨d, List.replicate d.toNat (-5.12), List.replicate d.toNat 5.12, [], arange 0 d,
    d.repr ++ "-dimensional Rastrigin function \nGlobal optimum: f(0,0,...,0) = 0",
    0, false, false⟩

/-- Translation of `Ackley.__init__(dim=10)`. -/
def Ackley.init (d : ℤ) : Problem :=
  ⟨d, List.replicate d.toNat (-15), List.replicate d.toNat 20, [], arange 0 d,
    d.repr ++ "-dimensional Ackley function \nGlobal optimum: f(0,0,...,0) = 0",
    0, false, false⟩

/-- Translation of `Griewank.__init__(dim=10)`. -/
def Griewank.init (d : ℤ) : Problem :=
  ⟨d, List.replicate d.toNat (-512), List.replicate d.toNat 512, [], arange 0 d,
    d.repr ++ "-dimensional Griewank function \nGlobal optimum: f(0,0,...,0) = 0",
    0, false, false⟩

/-- Translation of `Rosenbrock.__init__(dim=10)`. -/
def Rosenbrock.init (d : ℤ) : Problem :=
  ⟨d, List.replicate d.toNat (-2.048), List.replicate d.toNat 2.048, [], arange 0 d,
    d.repr ++ "-dimensional Rosenbrock function \nGlobal optimum: f(1,1,...,1) = 0",
    0, false, false⟩

/-- Translation of `Schwefel.__init__(dim=10)`. -/
def Schwefel.init (d : ℤ) : Problem :=
  ⟨d, List.replicate d.toNat (-512), List.replicate d.toNat 512, [], arange 0 d,
    d.repr ++ "-dimensional Schwefel function \nGlobal optimum: f(420.968746,...,420.968746) = 0",
    0, false, false⟩

/-- Translation of `Sphere.__init__(dim=10)`. -/
def Sphere.init (d : ℤ) : Problem :=
  ⟨d, List.replicate d.toNat (-5.12), List.replicate d.toNat 5.12, [], arange 0 d,
    d.repr ++ "-dimensional Sphere function \nGlobal optimum: f(0,0,...,0) = 0",
    0, false, false⟩

/-- Translation of `Exponential.__init__(dim=10)`. -/
def Exponential.init (d : ℤ) : Problem :=
  ⟨d, List.replicate d.toNat (-5.12), List.replicate d.toNat 5.12, [], arange 0 d,
    d.repr ++ "-dimensional Exponential function \nGlobal optimum: f(-5.12,-5.12,...,-5.12) = 0",
    0, false, false⟩

/-- Translation of `StyblinskiTang.__init__(dim=10)`.  The info string ends with
`str(-39.16599*dim)`; the decimal rendering of that Python float is not
modelled digit-for-digit (nothing reads it back). -/
def StyblinskiTang.init (d : ℤ) : Problem :=
  ⟨d, List.replicate d.toNat (-5), List.replicate d.toNat 5, [], arange 0 d,
    d.repr ++ "-dimensional Styblinski-Tang function \nGlobal optimum: f(-2.903534,...,-2.903534) = -39.16599*dim",
    -39.16599 * (d : ℝ), false, false⟩

/-- Translation of `Quartic.__init__(dim=10)` (the wall-clock-seeded `self.prng` is kept
outside the record and passed to `objfunction` explicitly). -/
def Quartic.init (d : ℤ) : Problem :=
  ⟨d, List.replicate d.toNat (-1.28), List.replicate d.toNat 1.28, [], arange 0 d,
    d.repr ++ "-dimensional Quartic function \nGlobal optimum: f(0,0,...,0) = 0+noise",
    0, false, false⟩

/-- Translation of `Whitley.__init__(dim=10)`. -/
def Whitley.init (d : ℤ) : Problem :=
  ⟨d, List.replicate d.toNat (-10.24), List.replicate d.toNat 10.24, [], arange 0 d,
    d.repr ++ "-dimensional Whitley function \nGlobal optimum: f(1,1,...,1) = 0",
    0, false, false⟩

/-- Translation of `SchafferF7.__init__(dim=10)`. -/
def SchafferF7.init (d : ℤ) : Problem :=
  ⟨d, List.replicate d.toNat (-100), List.replicate d.toNat 100, [], arange 0 d,
    d.repr ++ "-dimensional SchafferF7 function \nGlobal optimum: f(0,0,...,0) = 0",
    0, false, false⟩

/-- Translation of `Keane.__init__(dim=10)`. -/
def Keane.init (d : ℤ) : Problem :=
  ⟨d, List.replicate d.toNat 0, List.replicate d.toNat 5, [], arange 0 d,
    d.repr ++ "-dimensional Keane bump function \nGlobal optimum: -0.835 for large n",
    -0.835, true, true⟩

/-- Translation of `LargestPolygon.__init__(dim=10)`.  The body first runs
`assert dim % 2 == 0`; theorems about constructed instances carry that
evenness hypothesis.  `np.hstack((np.ones(dim/2), np.pi*np.ones(dim/2)))`
is list append; `dim/2` is Python-2 floor division. -/
noncomputable def LargestPolygon.init (d : ℤ) : Problem :=
  ⟨d, List.replicate d.toNat 0,
    List.replicate (d / 2).toNat 1 ++ List.replicate (d / 2).toNat Real.pi,
    [], arange 0 d,
    d.repr ++ "-dimensional Largest Polygon \nGlobal optimum: approaches -0.7854\n",
    -0.7854, true, true⟩

/-- Translation of `LinearMI.__init__()` (no dimension argument). -/
def LinearMI.init : Problem :=
  ⟨5, List.replicate 5 0, [10, 10, 10, 1, 1], arange 0 3, arange 3 5,
    "5-dimensional Linear MI \nGlobal optimum: f(1,0,0,0,0) = -1\n3 integer variables",
    -1, true, true⟩

/-! ## Evaluation methods

Each `C.objfunction` takes the receiver and the input vector and returns
`Except.error "Dimension mismatch"` when `len(x) != self.dim` (the
`raise ValueError('Dimension mismatch')` every class starts with),
otherwise the closed-form value.  Vectorized NumPy expressions
(`sum(x**2)` and the like) become sums/products over the list; explicit
Python loops become sums over `Finset.range`. -/

/-- Vector `alpha` of `Hartman3.objfunction`. -/
def hartmanAlpha : List ℝ := [1, 1.2, 3, 3.2]

/-- Matrix `A` of `Hartman3.objfunction`. -/
def hartmanA : List (List ℝ) :=
  [[3.0, 10.0, 30.0], [0.1, 10.0, 35.0], [3.0, 10.0, 30.0], [0.1, 10.0, 35.0]]

/-- Matrix `P` of `Hartman3.objfunction`. -/
def hartmanP : List (List ℝ) :=
  [[0.3689, 0.1170, 0.2673], [0.4699, 0.4387, 0.747],
   [0.1091, 0.8732, 0.5547], [0.0381, 0.5743, 0.8828]]

/-- Translation of `Hartman3.objfunction`: `-sum_ii alpha[ii] * exp(-sum_jj A[ii,jj]*(x[jj]-P[ii,jj])**2)`. -/
noncomputable def Hartman3.objfunction (self : Problem) (x : List ℝ) : Except String ℝ :=
  if (x.length : ℤ) ≠ self.dim then .error "Dimension mismatch"
  else .ok (-(∑ ii ∈ Finset.range 4, hartmanAlpha.getD ii 0 *
      Real.exp (-(∑ jj ∈ Finset.range 3,
        (hartmanA.getD ii []).getD jj 0 *
          (x.getD jj 0 - (hartmanP.getD ii []).getD jj 0) ^ 2))))

/-- Translation of `Rastrigin.objfunction`: `10*dim + sum(x**2 - 10*cos(2*pi*x))`. -/
noncomputable def Rastrigin.objfunction (self : Problem) (x : List ℝ) : Except String ℝ :=
  if (x.length : ℤ) ≠ self.dim then .error "Dimension mismatch"
  else .ok (10 * (self.dim : ℝ) +
    (x.map (fun y => y ^ 2 - 10 * Real.cos (2 * Real.pi * y))).sum)

/-- Translation of `Ackley.objfunction`.  The two divisions by `n` are NumPy-scalar
divisions (no `ZeroDivisionError`); `n = len(x) = dim ≥ 1` on every
constructed instance. -/
noncomputable def Ackley.objfunction (self : Problem) (x : List ℝ) : Except String ℝ :=
  if (x.length : ℤ) ≠ self.dim then .error "Dimension mismatch"
  else .ok (-20.0 * Real.exp (-0.2 * Real.sqrt ((x.map (fun y => y ^ 2)).sum / (x.length : ℝ))) -
    Real.exp ((x.map (fun y => Real.cos (2.0 * Real.pi * y))).sum / (x.length : ℝ)) +
    20 + Real.exp 1)

/-- Translation of `Griewank.objfunction`: the loop multiplies `cos(y/sqrt(i+1))` over
`enumerate(x)` into `total`, and the result is
`1/4000 * sum(y**2 for y in x) - total + 1`. -/
noncomputable def Griewank.objfunction (self : Problem) (x : List ℝ) : Except String ℝ :=
  if (x.length : ℤ) ≠ self.dim then .error "Dimension mismatch"
  else .ok (1.0 / 4000.0 * (x.map (fun y => y ^ 2)).sum -
    (∏ i ∈ Finset.range x.length, Real.cos (x.getD i 0 / Real.sqrt ((i : ℝ) + 1))) + 1)

/-- Translation of `Rosenbrock.objfunction`: `sum_{i<len(x)-1} 100*(x[i]**2-x[i+1])**2 + (x[i]-1)**2`. -/
noncomputable def Rosenbrock.objfunction (self : Problem) (x : List ℝ) : Except String ℝ :=
  if (x.length : ℤ) ≠ self.dim then .error "Dimension mismatch"
  else .ok (∑ i ∈ Finset.range (x.length - 1),
    (100 * (x.getD i 0 ^ 2 - x.getD (i + 1) 0) ^ 2 + (x.getD i 0 - 1) ^ 2))

/-- Translation of `Schwefel.objfunction`: `418.9829*dim - sum(y*sin(sqrt(abs(y))) for y in x)`. -/
noncomputable def Schwefel.objfunction (self : Problem) (x : List ℝ) : Except String ℝ :=
  if (x.length : ℤ) ≠ self.dim then .error "Dimension mismatch"
  else .ok (418.9829 * (self.dim : ℝ) -
    (x.map (fun y => y * Real.sin (Real.sqrt |y|))).sum)

/-- Translation of `Sphere.objfunction`: `sum(x**2)`. -/
noncomputable def Sphere.objfunction (self : Problem) (x : List ℝ) : Except String ℝ :=
  if (x.length : ℤ) ≠ self.dim then .error "Dimension mismatch"
  else .ok ((x.map (fun y => y ^ 2)).sum)

/-- Translation of `Exponential.objfunction`: the loop adds
`exp((i+1)*x[i-1]) - exp(-5.12*(i+1))` for `i in range(len(x))`; note the
source reads `x[i-1]`, which at `i = 0` is Python's `x[-1]`, the last
element. -/
noncomputable def Exponential.objfunction (self : Problem) (x : List ℝ) : Except String ℝ :=
  if (x.length : ℤ) ≠ self.dim then .error "Dimension mismatch"
  else .ok (∑ i ∈ Finset.range x.length,
    (Real.exp (((i : ℝ) + 1) * pyGet x ((i : ℤ) - 1)) - Real.exp (-5.12 * ((i : ℝ) + 1))))

/-- Translation of `StyblinskiTang.objfunction`: `0.5*sum(x**4 - 16*x**2 + 5*x)`. -/
noncomputable def StyblinskiTang.objfunction (self : Problem) (x : List ℝ) : Except String ℝ :=
  if (x.length : ℤ) ≠ self.dim then .error "Dimension mismatch"
  else .ok (0.5 * (x.map (fun y => y ^ 4 - 16 * y ^ 2 + 5 * y)).sum)

/-- Translation of `Quartic.objfunction`: `sum_{i<len(x)} (i+1.0)*x[i]**4.0` plus
`self.prng.uniform(0, 1)`.  The per-instance generator is passed and
returned explicitly; the float power `** 4.0` agrees with the fourth
power on every float input, and is modelled as `^ 4`. -/
noncomputable def Quartic.objfunction (self : Problem) (g : PyRandom) (x : List ℝ) :
    Except String (ℝ × PyRandom) :=
  if (x.length : ℤ) ≠ self.dim then .error "Dimension mismatch"
  else
    let u := g.uniform01
    .ok ((∑ i ∈ Finset.range x.length, ((i : ℝ) + 1.0) * x.getD i 0 ^ 4) + u.1, u.2)

/-- Translation of `Whitley.objfunction`: double loop over `i, j` of
`temp**2/4000 - cos(temp) + 1` with `temp = 100*(x[i]**2-x[j]) + (1-x[j])**2`. -/
noncomputable def Whitley.objfunction (self : Problem) (x : List ℝ) : Except String ℝ :=
  if (x.length : ℤ) ≠ self.dim then .error "Dimension mismatch"
  else .ok (∑ i ∈ Finset.range x.length, ∑ j ∈ Finset.range x.length,
    ((100 * (x.getD i 0 ^ 2 - x.getD j 0) + (1 - x.getD j 0) ^ 2) ^ 2 / 4000.0 -
      Real.cos (100 * (x.getD i 0 ^ 2 - x.getD j 0) + (1 - x.getD j 0) ^ 2) + 1))

/-- Translation of `SchafferF7.objfunction`.  `normalizer = 1.0/float(len(x)-1)` is a
pure-Python float division: when `len(x) = 1` it divides by zero and
raises `ZeroDivisionError` before the loop runs. -/
noncomputable def SchafferF7.objfunction (self : Problem) (x : List ℝ) : Except String ℝ :=
  if (x.length : ℤ) ≠ self.dim then .error "Dimension mismatch"
  else if x.length = 1 then .error "ZeroDivisionError: float division by zero"
  else .ok (∑ i ∈ Finset.range (x.length - 1),
    ((1.0 / ((x.length : ℝ) - 1)) * Real.sqrt (Real.sqrt (x.getD i 0 ^ 2 + x.getD (i + 1) 0 ^ 2)) *
      (Real.sin (50 * Real.sqrt (x.getD i 0 ^ 2 + x.getD (i + 1) 0 ^ 2) ^ (0.20 : ℝ)) + 1)) ^ 2)

/-- Translation of `Keane.objfunction`:
`-abs((sum(cos(x)**4) - 2*prod(cos(x)**2)) / max([1e-10, sqrt(dot(1+arange(n), x**2))]))`. -/
noncomputable def Keane.objfunction (self : Problem) (x : List ℝ) : Except String ℝ :=
  if (x.length : ℤ) ≠ self.dim then .error "Dimension mismatch"
  else .ok (-|((x.map (fun y => Real.cos y ^ 4)).sum -
      2 * (x.map (fun y => Real.cos y ^ 2)).prod) /
    max 1e-10 (Real.sqrt (∑ j ∈ Finset.range x.length, ((j : ℝ) + 1) * x.getD j 0 ^ 2))|)

/-- Translation of `Keane.eval_ineq_constraints`: no dimension check; fills a length-2
vector with `0.75 - prod(x)` and `sum(x) - 7.5*dim`. -/
noncomputable def Keane.eval_ineq_constraints (self : Problem) (x : List ℝ) :
    Except String (List ℝ) :=
  .ok [0.75 - x.prod, x.sum - 7.5 * (self.dim : ℝ)]

/-- Translation of `LargestPolygon.objfunction`: `-sum_{i<dim/2-1}
0.5*x[i+1]*x[i]*sin(x[dim/2+i+1] - x[dim/2+i])` (`dim/2` is floor
division). -/
noncomputable def LargestPolygon.objfunction (self : Problem) (x : List ℝ) : Except String ℝ :=
  if (x.length : ℤ) ≠ self.dim then .error "Dimension mismatch"
  else .ok (-(∑ i ∈ Finset.range ((self.dim / 2).toNat - 1),
    0.5 * x.getD (i + 1) 0 * x.getD i 0 *
      Real.sin (x.getD ((self.dim / 2).toNat + i + 1) 0 - x.getD ((self.dim / 2).toNat + i) 0)))

/-- Translation of `LargestPolygon.eval_ineq_constraints`: no dimension check.  The loops
read indices up to `2*(dim/2) - 1`; NumPy raises `IndexError` when the
input is shorter, otherwise the result starts from
`np.zeros((dim/2)**2 + dim/2 - 1)` and the two loops write
`vec[i*dim/2+j]` (which is `(i*dim)/2 + j`, the `*` binding before the
floor division) and `vec[(dim/2)**2+i]`. -/
noncomputable def LargestPolygon.eval_ineq_constraints (self : Problem) (x : List ℝ) :
    Except String (List ℝ) :=
  let m := (self.dim / 2).toNat
  if x.length < 2 * m then .error "IndexError: index out of bounds"
  else .ok (
    ((List.range (m - 1)).foldl (fun acc (i : ℕ) =>
        acc.set (m ^ 2 + i) (x.getD (m + i) 0 - x.getD (m + i + 1) 0))
      ((List.range m).foldl (fun acc (i : ℕ) =>
          (List.range m).foldl (fun acc2 (j : ℕ) =>
              acc2.set (((i : ℤ) * self.dim / 2).toNat + j)
                (x.getD i 0 ^ 2 + x.getD j 0 ^ 2 -
                  2.0 * x.getD i 0 * x.getD j 0 *
                    Real.cos (x.getD (m + i) 0 - x.getD (m + j) 0) - 1))
            acc)
        (List.replicate (m ^ 2 + m - 1) (0 : ℝ)))))

/-- Translation of `LinearMI.objfunction`: `-x[0] + 3*x[1] + 1.5*x[2] + 2*x[3] - 0.5*x[4]`. -/
noncomputable def LinearMI.objfunction (self : Problem) (x : List ℝ) : Except String ℝ :=
  if (x.length : ℤ) ≠ self.dim then .error "Dimension mismatch"
  else .ok (-x.getD 0 0 + 3 * x.getD 1 0 + 1.5 * x.getD 2 0 + 2 * x.getD 3 0 - 0.5 * x.getD 4 0)

/-- Translation of `LinearMI.eval_ineq_constraints`: no dimension check; reads
`x[0] .. x[4]`, so an input shorter than 5 raises `IndexError`, and any
longer input yields the three residuals. -/
noncomputable def LinearMI.eval_ineq_constraints (_self : Problem) (x : List ℝ) :
    Except String (List ℝ) :=
  if x.length < 5 then .error "IndexError: index out of bounds"
  else .ok [x.getD 0 0 + x.getD 2 0 - 1.6,
    1.333 * x.getD 1 0 + x.getD 3 0 - 3,
    -x.getD 2 0 - x.getD 3 0 + x.getD 4 0]

/-! ## State-passing form of the methods

Python methods could mutate their receiver; to make the frame property
visible, each method is also given in state-passing form, returning the
receiver state after the call.  No method body in the source assigns to
any attribute of `self`, so each wrapper returns the receiver it was
given; `Quartic.objfunction` additionally draws from the per-instance
generator, whose advanced state is part of the result. -/

/-- Translation of `Hartman3.objfunction` with the post-call receiver. -/
noncomputable def Hartman3.objfunctionS (self : Problem) (x : List ℝ) :
    Except String ℝ × Problem := (Hartman3.objfunction self x, self)

/-- Translation of `Rastrigin.objfunction` with the post-call receiver. -/
noncomputable def Rastrigin.objfunctionS (self : Problem) (x : List ℝ) :
    Except String ℝ × Problem := (Rastrigin.objfunction self x, self)

/-- Translation of `Ackley.objfunction` with the post-call receiver. -/
noncomputable def Ackley.objfunctionS (self : Problem) (x : List ℝ) :
    Except String ℝ × Problem := (Ackley.objfunction self x, self)

/-- Translation of `Griewank.objfunction` with the post-call receiver. -/
noncomputable def Griewank.objfunctionS (self : Problem) (x : List ℝ) :
    Except String ℝ × Problem := (Griewank.objfunction self x, self)

/-- Translation of `Rosenbrock.objfunction` with the post-call receiver. -/
noncomputable def Rosenbrock.objfunctionS (self : Problem) (x : List ℝ) :
    Except String ℝ × Problem := (Rosenbrock.objfunction self x, self)

/-- Translation of `Schwefel.objfunction` with the post-call receiver. -/
noncomputable def Schwefel.objfunctionS (self : Problem) (x : List ℝ) :
    Except String ℝ × Problem := (Schwefel.objfunction self x, self)

/-- Translation of `Sphere.objfunction` with the post-call receiver. -/
noncomputable def Sphere.objfunctionS (self : Problem) (x : List ℝ) :
    Except String ℝ × Problem := (Sphere.objfunction self x, self)

/-- Translation of `Exponential.objfunction` with the post-call receiver. -/
noncomputable def Exponential.objfunctionS (self : Problem) (x : List ℝ) :
    Except String ℝ × Problem := (Exponential.objfunction self x, self)

/-- Translation of `StyblinskiTang.objfunction` with the post-call receiver. -/
noncomputable def StyblinskiTang.objfunctionS (self : Problem) (x : List ℝ) :
    Except String ℝ × Problem := (StyblinskiTang.objfunction self x, self)

/-- Translation of `Quartic.objfunction` with the post-call receiver: the `Problem`
attributes after the call, and the result carrying the advanced
generator. -/
noncomputable def Quartic.objfunctionS (self : Problem) (g : PyRandom) (x : List ℝ) :
    Except String (ℝ × PyRandom) × Problem := (Quartic.objfunction self g x, self)

/-- Translation of `Whitley.objfunction` with the post-call receiver. -/
noncomputable def Whitley.objfunctionS (self : Problem) (x : List ℝ) :
    Except String ℝ × Problem := (Whitley.objfunction self x, self)

/-- Translation of `SchafferF7.objfunction` with the post-call receiver. -/
noncomputable def SchafferF7.objfunctionS (self : Problem) (x : List ℝ) :
    Except String ℝ × Problem := (SchafferF7.objfunction self x, self)

/-- Translation of `Keane.objfunction` with the post-call receiver. -/
noncomputable def Keane.objfunctionS (self : Problem) (x : List ℝ) :
    Except String ℝ × Problem := (Keane.objfunction self x, self)

/-- Translation of `Keane.eval_ineq_constraints` with the post-call receiver. -/
noncomputable def Keane.evalIneqS (self : Problem) (x : List ℝ) :
    Except String (List ℝ) × Problem := (Keane.eval_ineq_constraints self x, self)

/-- Translation of `LargestPolygon.objfunction` with the post-call receiver. -/
noncomputable def LargestPolygon.objfunctionS (self : Problem) (x : List ℝ) :
    Except String ℝ × Problem := (LargestPolygon.objfunction self x, self)

/-- Translation of `LargestPolygon.eval_ineq_constraints` with the post-call receiver. -/
noncomputable def LargestPolygon.evalIneqS (self : Problem) (x : List ℝ) :
    Except String (List ℝ) × Problem := (LargestPolygon.eval_ineq_constraints self x, self)

/-- Translation of `LinearMI.objfunction` with the post-call receiver. -/
noncomputable def LinearMI.objfunctionS (self : Problem) (x : List ℝ) :
    Except String ℝ × Problem := (LinearMI.objfunction self x, self)

/-- Translation of `LinearMI.eval_ineq_constraints` with the post-call receiver. -/
noncomputable def LinearMI.evalIneqS (self : Problem) (x : List ℝ) :
    Except String (List ℝ) × Problem := (LinearMI.eval_ineq_constraints self x, self)

/-! ## Helper lemmas about the embedding primitives -/

theorem mem_arange {a b y : ℤ} : y ∈ arange a b ↔ a ≤ y ∧ y < b := by
  unfold arange
  constructor
  · intro hy
    obtain ⟨k, hk, rfl⟩ := List.mem_map.mp hy
    have hk' := List.mem_range.mp hk
    omega
  · intro h
    exact List.mem_map.mpr ⟨(y - a).toNat, List.mem_range.mpr (by omega), by omega⟩

theorem arange_length (a b : ℤ) : (arange a b).length = (b - a).toNat := by
  unfold arange
  rw [List.length_map, List.length_range]

theorem arange_nodup (a b : ℤ) : (arange a b).Nodup := by
  unfold arange
  refine List.Nodup.map ?_ (List.nodup_range _)
  intro u v huv
  have h2 : (u : ℤ) = v := by simpa using huv
  omega

theorem foldl_max_lt {c : ℤ} : ∀ (xs : List ℤ) (a : ℤ), a < c → (∀ y ∈ xs, y < c) →
    xs.foldl max a < c
  | [], a, ha, _ => ha
  | x :: xs, a, ha, h => by
    simp only [List.foldl_cons]
    exact foldl_max_lt xs (max a x) (max_lt ha (h x (by simp)))
      (fun y hy => h y (by simp [hy]))

theorem lt_foldl_min {c : ℤ} : ∀ (xs : List ℤ) (a : ℤ), c ≤ a → (∀ y ∈ xs, c ≤ y) →
    c ≤ xs.foldl min a
  | [], a, ha, _ => ha
  | x :: xs, a, ha, h => by
    simp only [List.foldl_cons]
    exact lt_foldl_min xs (min a x) (le_min ha (h x (by simp)))
      (fun y hy => h y (by simp [hy]))

theorem le_foldl_max : ∀ (xs : List ℤ) (a : ℤ), a ≤ xs.foldl max a
  | [], _ => le_refl _
  | x :: xs, a => by
    simp only [List.foldl_cons]
    exact le_trans (le_max_left a x) (le_foldl_max xs (max a x))

theorem mem_le_foldl_max : ∀ (xs : List ℤ) (a y : ℤ), y ∈ xs → y ≤ xs.foldl max a
  | x :: xs, a, y, hy => by
    simp only [List.foldl_cons]
    rcases List.mem_cons.mp hy with rfl | hy'
    · exact le_trans (le_max_right a y) (le_foldl_max xs (max a y))
    · exact mem_le_foldl_max xs (max a x) y hy'

theorem foldl_min_le : ∀ (xs : List ℤ) (a : ℤ), xs.foldl min a ≤ a
  | [], _ => le_refl _
  | x :: xs, a => by
    simp only [List.foldl_cons]
    exact le_trans (foldl_min_le xs (min a x)) (min_le_left a x)

theorem foldl_min_le_mem : ∀ (xs : List ℤ) (a y : ℤ), y ∈ xs → xs.foldl min a ≤ y
  | x :: xs, a, y, hy => by
    simp only [List.foldl_cons]
    rcases List.mem_cons.mp hy with rfl | hy'
    · exact le_trans (foldl_min_le xs (min a y)) (min_le_right a y)
    · exact foldl_min_le_mem xs (min a x) y hy'

theorem amax_lt {l : List ℤ} {c : ℤ} (hne : l ≠ []) (h : ∀ y ∈ l, y < c) : amax l < c := by
  cases l with
  | nil => exact absurd rfl hne
  | cons x xs =>
    exact foldl_max_lt xs x (h x (by simp)) (fun y hy => h y (by simp [hy]))

theorem le_amin {l : List ℤ} {c : ℤ} (hne : l ≠ []) (h : ∀ y ∈ l, c ≤ y) : c ≤ amin l := by
  cases l with
  | nil => exact absurd rfl hne
  | cons x xs =>
    exact lt_foldl_min xs x (h x (by simp)) (fun y hy => h y (by simp [hy]))

theorem le_amax {l : List ℤ} {y : ℤ} (hy : y ∈ l) : y ≤ amax l := by
  cases l with
  | nil => simp at hy
  | cons x xs =>
    rcases List.mem_cons.mp hy with rfl | hy'
    · exact le_foldl_max xs y
    · exact mem_le_foldl_max xs x y hy'

theorem amin_le {l : List ℤ} {y : ℤ} (hy : y ∈ l) : amin l ≤ y := by
  cases l with
  | nil => simp at hy
  | cons x xs =>
    rcases List.mem_cons.mp hy with rfl | hy'
    · exact foldl_min_le xs y
    · exact foldl_min_le_mem xs x y hy'

theorem getD_replicate {c : ℝ} {n i : ℕ} (h : i < n) :
    (List.replicate n c).getD i 0 = c := by
  rw [List.getD_eq_getElem]
  exact List.getElem_replicate c (by simpa using h)

theorem inter_nil_of_right_nil (l : List ℤ) : (l.inter ([] : List ℤ)).length = 0 := by
  simp [List.inter]

/-! ## `validate` holds for constructed instances -/


/-- Validation of the common constructor shape: box bounds
`lo * ones(d)` / `hi * ones(d)` with `lo < hi`, no integer variables, and
`continuous = arange(0, d)`. -/
theorem validate_box (d : ℤ) (hd : 1 ≤ d) (lo hi : ℝ) (hlh : lo < hi)
    (s : String) (mn : ℝ) (cb ib : Bool) (hci : cb = true → ib = true) :
    validate ⟨d, List.replicate d.toNat lo, List.replicate d.toNat hi,
      [], arange 0 d, s, mn, cb, ib⟩ := by
  unfold validate
  dsimp only
  refine ⟨hci, by omega, ⟨by rw [List.length_replicate]; omega,
    by rw [List.length_replicate]; omega⟩, ?_, ?_, ?_, ?_, ?_⟩
  · intro i hi'
    have hlen : i < d.toNat := by omega
    rw [getD_replicate hlen, getD_replicate hlen]
    exact hlh
  · intro h
    exact absurd rfl h
  · intro h
    constructor
    · exact amax_lt h (fun y hy => (mem_arange.mp hy).2)
    · exact le_amin h (fun y hy => (mem_arange.mp hy).1)
  · exact inter_nil_of_right_nil _
  · rw [arange_length, List.length_nil]
    omega

theorem validate_Hartman3 (d : ℤ) : validate (Hartman3.init d) :=
  validate_box 3 (by omega) 0 1 (by norm_num) _ _ false false (by simp)

theorem validate_Rastrigin (d : ℤ) (hd : 1 ≤ d) : validate (Rastrigin.init d) :=
  validate_box d hd (-5.12) 5.12 (by norm_num) _ _ false false (by simp)

theorem validate_Ackley (d : ℤ) (hd : 1 ≤ d) : validate (Ackley.init d) :=
  validate_box d hd (-15) 20 (by norm_num) _ _ false false (by simp)

theorem validate_Griewank (d : ℤ) (hd : 1 ≤ d) : validate (Griewank.init d) :=
  validate_box d hd (-512) 512 (by norm_num) _ _ false false (by simp)

theorem validate_Rosenbrock (d : ℤ) (hd : 1 ≤ d) : validate (Rosenbrock.init d) :=
  validate_box d hd (-2.048) 2.048 (by norm_num) _ _ false false (by simp)

theorem validate_Schwefel (d : ℤ) (hd : 1 ≤ d) : validate (Schwefel.init d) :=
  validate_box d hd (-512) 512 (by norm_num) _ _ false false (by simp)

theorem validate_Sphere (d : ℤ) (hd : 1 ≤ d) : validate (Sphere.init d) :=
  validate_box d hd (-5.12) 5.12 (by norm_num) _ _ false false (by simp)

theorem validate_Exponential (d : ℤ) (hd : 1 ≤ d) : validate (Exponential.init d) :=
  validate_box d hd (-5.12) 5.12 (by norm_num) _ _ false false (by simp)

theorem validate_StyblinskiTang (d : ℤ) (hd : 1 ≤ d) : validate (StyblinskiTang.init d) :=
  validate_box d hd (-5) 5 (by norm_num) _ _ false false (by simp)

theorem validate_Quartic (d : ℤ) (hd : 1 ≤ d) : validate (Quartic.init d) :=
  validate_box d hd (-1.28) 1.28 (by norm_num) _ _ false false (by simp)

theorem validate_Whitley (d : ℤ) (hd : 1 ≤ d) : validate (Whitley.init d) :=
  validate_box d hd (-10.24) 10.24 (by norm_num) _ _ false false (by simp)

theorem validate_SchafferF7 (d : ℤ) (hd : 1 ≤ d) : validate (SchafferF7.init d) :=
  validate_box d hd (-100) 100 (by norm_num) _ _ false false (by simp)

theorem validate_Keane (d : ℤ) (hd : 1 ≤ d) : validate (Keane.init d) :=
  validate_box d hd 0 5 (by norm_num) _ _ true true (by simp)

theorem validate_LargestPolygon (d : ℤ) (hd : 1 ≤ d) (he : d % 2 = 0) :
    validate (LargestPolygon.init d) := by
  unfold validate LargestPolygon.init
  dsimp only
  refine ⟨by simp, by omega, ⟨by rw [List.length_replicate]; omega,
    by rw [List.length_append, List.length_replicate, List.length_replicate]; omega⟩,
    ?_, ?_, ?_, ?_, ?_⟩
  · intro i hi'
    have hlen : i < d.toNat := by omega
    rw [getD_replicate hlen]
    rcases Nat.lt_or_ge i (d / 2).toNat with hc | hc
    · rw [List.getD_append _ _ _ _ (by simpa using hc), getD_replicate hc]
      norm_num
    · rw [List.getD_append_right _ _ _ _ (by simpa using hc),
        List.length_replicate, getD_replicate (by omega)]
      exact Real.pi_pos
  · intro h
    exact absurd rfl h
  · intro h
    constructor
    · exact amax_lt h (fun y hy => (mem_arange.mp hy).2)
    · exact le_amin h (fun y hy => (mem_arange.mp hy).1)
  · exact inter_nil_of_right_nil _
  · rw [arange_length, List.length_nil]
    omega

theorem validate_LinearMI : validate LinearMI.init := by
  unfold validate LinearMI.init
  dsimp only
  refine ⟨by simp, by omega, ⟨by rw [List.length_replicate]; rfl, by norm_num⟩,
    ?_, ?_, ?_, ?_, ?_⟩
  · intro i hi'
    have h5 : i < 5 := by omega
    rw [getD_replicate h5]
    interval_cases i <;> norm_num
  · intro _
    refine ⟨amax_lt (by decide) (fun y hy => ?_), le_amin (by decide) (fun y hy => ?_)⟩
    · have := mem_arange.mp hy
      omega
    · have := mem_arange.mp hy
      omega
  · intro _
    refine ⟨amax_lt (by decide) (fun y hy => ?_), le_amin (by decide) (fun y hy => ?_)⟩
    · have := mem_arange.mp hy
      omega
    · have := mem_arange.mp hy
      omega
  · decide
  · decide

/-! ## Claims C3, C4, C9 -/

/-- The check `len(np.intersect1d(l1, l2)) == 0` means no common element. -/
theorem not_mem_both_of_inter {l1 l2 : List ℤ} (h : (l1.inter l2).length = 0) :
    ∀ k : ℤ, ¬(k ∈ l1 ∧ k ∈ l2) := by
  intro k hk
  have hmem : k ∈ l1.inter l2 := List.mem_inter_iff.mpr hk
  rw [List.length_eq_zero.mp h] at hmem
  simp at hmem

/-- The invariants of claim C4 on a problem instance: bound vectors of
length `dim`, strict bounds, index sets that count up to `dim` and are
disjoint. -/
def constructedInvariants (p : Problem) : Prop :=
  (p.xlow.length : ℤ) = p.dim ∧ (p.xup.length : ℤ) = p.dim ∧
  (∀ i : ℕ, (i : ℤ) < p.dim → p.xlow.getD i 0 < p.xup.getD i 0) ∧
  ((p.continuous.length : ℤ) + (p.integer.length : ℤ) = p.dim) ∧
  (∀ k : ℤ, ¬(k ∈ p.continuous ∧ k ∈ p.integer))

theorem constructedInvariants_of_validate {p : Problem} (h : validate p) :
    constructedInvariants p := by
  obtain ⟨-, -, ⟨h3a, h3b⟩, h4, -, -, h7, h8⟩ := h
  exact ⟨h3a, h3b, h4, h8, not_mem_both_of_inter h7⟩

/-- C3: for every problem type, constructing with its default
dimensionality (3 for `Hartman3`, 10 for the n-dimensional families and
`LargestPolygon`, the fixed 5 for `LinearMI`) passes the `validate` call
in its constructor: every assertion of `validate` holds. -/
theorem hartman3_default_passes_validate_and_all_defaults :
    validate (Hartman3.init 3) ∧ validate (Rastrigin.init 10) ∧ validate (Ackley.init 10) ∧
    validate (Griewank.init 10) ∧ validate (Rosenbrock.init 10) ∧
    validate (Schwefel.init 10) ∧ validate (Sphere.init 10) ∧
    validate (Exponential.init 10) ∧ validate (StyblinskiTang.init 10) ∧
    validate (Quartic.init 10) ∧ validate (Whitley.init 10) ∧
    validate (SchafferF7.init 10) ∧ validate (Keane.init 10) ∧
    validate (LargestPolygon.init 10) ∧ validate LinearMI.init :=
  ⟨validate_Hartman3 3, validate_Rastrigin 10 (by omega), validate_Ackley 10 (by omega),
    validate_Griewank 10 (by omega), validate_Rosenbrock 10 (by omega),
    validate_Schwefel 10 (by omega), validate_Sphere 10 (by omega),
    validate_Exponential 10 (by omega), validate_StyblinskiTang 10 (by omega),
    validate_Quartic 10 (by omega), validate_Whitley 10 (by omega),
    validate_SchafferF7 10 (by omega), validate_Keane 10 (by omega),
    validate_LargestPolygon 10 (by omega) (by omega), validate_LinearMI⟩

/-- C4: every instance produced by a successful constructor call (any
permitted `dim`: any `dim ≥ 1` for the box-bound families, additionally
even for `LargestPolygon`, any value at all for `Hartman3` which ignores
it, and no argument for `LinearMI`) has bound vectors of length `dim`
with `xlow[i] < xup[i]` everywhere, `len(continuous) + len(integer) ==
dim`, and disjoint index sets. -/
theorem constructor_instances_satisfy_invariants (d : ℤ) (hd : 1 ≤ d) :
    (∀ d' : ℤ, constructedInvariants (Hartman3.init d')) ∧
    constructedInvariants (Rastrigin.init d) ∧ constructedInvariants (Ackley.init d) ∧
    constructedInvariants (Griewank.init d) ∧ constructedInvariants (Rosenbrock.init d) ∧
    constructedInvariants (Schwefel.init d) ∧ constructedInvariants (Sphere.init d) ∧
    constructedInvariants (Exponential.init d) ∧
    constructedInvariants (StyblinskiTang.init d) ∧
    constructedInvariants (Quartic.init d) ∧ constructedInvariants (Whitley.init d) ∧
    constructedInvariants (SchafferF7.init d) ∧ constructedInvariants (Keane.init d) ∧
    (d % 2 = 0 → constructedInvariants (LargestPolygon.init d)) ∧
    constructedInvariants LinearMI.init :=
  ⟨fun d' => constructedInvariants_of_validate (validate_Hartman3 d'),
    constructedInvariants_of_validate (validate_Rastrigin d hd),
    constructedInvariants_of_validate (validate_Ackley d hd),
    constructedInvariants_of_validate (validate_Griewank d hd),
    constructedInvariants_of_validate (validate_Rosenbrock d hd),
    constructedInvariants_of_validate (validate_Schwefel d hd),
    constructedInvariants_of_validate (validate_Sphere d hd),
    constructedInvariants_of_validate (validate_Exponential d hd),
    constructedInvariants_of_validate (validate_StyblinskiTang d hd),
    constructedInvariants_of_validate (validate_Quartic d hd),
    constructedInvariants_of_validate (validate_Whitley d hd),
    constructedInvariants_of_validate (validate_SchafferF7 d hd),
    constructedInvariants_of_validate (validate_Keane d hd),
    fun he => constructedInvariants_of_validate (validate_LargestPolygon d hd he),
    constructedInvariants_of_validate validate_LinearMI⟩

/-- Witness for C4 at the concrete permitted dimension 10. -/
theorem constructor_instances_satisfy_invariants_witness :
    (1 : ℤ) ≤ 10 ∧
    ((∀ d' : ℤ, constructedInvariants (Hartman3.init d')) ∧
      constructedInvariants (Rastrigin.init 10) ∧ constructedInvariants (Ackley.init 10) ∧
      constructedInvariants (Griewank.init 10) ∧ constructedInvariants (Rosenbrock.init 10) ∧
      constructedInvariants (Schwefel.init 10) ∧ constructedInvariants (Sphere.init 10) ∧
      constructedInvariants (Exponential.init 10) ∧
      constructedInvariants (StyblinskiTang.init 10) ∧
      constructedInvariants (Quartic.init 10) ∧ constructedInvariants (Whitley.init 10) ∧
      constructedInvariants (SchafferF7.init 10) ∧ constructedInvariants (Keane.init 10) ∧
      ((10 : ℤ) % 2 = 0 → constructedInvariants (LargestPolygon.init 10)) ∧
      constructedInvariants LinearMI.init) :=
  ⟨by norm_num, constructor_instances_satisfy_invariants 10 (by norm_num)⟩

/-- C9: `Hartman3.__init__` ignores its `dim` argument — every call
yields the same 3-dimensional instance (dim 3, bounds of length 3,
continuous indices `{0,1,2}`, the same objective function), and in
particular `Hartman3(dim=5)` is not 5-dimensional. -/
theorem hartman3_ignores_dim_argument (d : ℤ) :
    Hartman3.init d = Hartman3.init 3 ∧
    (Hartman3.init d).dim = 3 ∧
    (Hartman3.init d).xlow.length = 3 ∧ (Hartman3.init d).xup.length = 3 ∧
    (Hartman3.init d).continuous = [0, 1, 2] ∧
    (∀ x : List ℝ, Hartman3.objfunction (Hartman3.init d) x =
      Hartman3.objfunction (Hartman3.init 3) x) ∧
    (Hartman3.init 5).dim ≠ 5 :=
  ⟨rfl, rfl, rfl, rfl, rfl, fun _ => rfl, by decide⟩

/-- Witness for C9 at the concrete argument `dim = 7`. -/
theorem hartman3_ignores_dim_argument_witness :
    Hartman3.init 7 = Hartman3.init 3 ∧
    (Hartman3.init 7).dim = 3 ∧
    (Hartman3.init 7).xlow.length = 3 ∧ (Hartman3.init 7).xup.length = 3 ∧
    (Hartman3.init 7).continuous = [0, 1, 2] ∧
    (∀ x : List ℝ, Hartman3.objfunction (Hartman3.init 7) x =
      Hartman3.objfunction (Hartman3.init 3) x) ∧
    (Hartman3.init 5).dim ≠ 5 :=
  hartman3_ignores_dim_argument 7

/-! ## Claim C1: the partition property of `validate` -/

/-- The property claim C1 asserts of every object `validate` accepts:
the continuous and integer index collections are disjoint, every listed
index lies in `{0, ..., dim-1}`, and their union is exactly
`{0, ..., dim-1}`. -/
def partitionsIndexRange (p : Problem) : Prop :=
  (∀ k : ℤ, ¬(k ∈ p.continuous ∧ k ∈ p.integer)) ∧
  (∀ k : ℤ, (k ∈ p.continuous ∨ k ∈ p.integer) → 0 ≤ k ∧ k < p.dim) ∧
  (∀ k : ℤ, 0 ≤ k ∧ k < p.dim → (k ∈ p.continuous ∨ k ∈ p.integer))

/-- An object `validate` accepts whose continuous index list carries a
duplicate: `validate` never checks the lists for duplicates, so the
length count `len(continuous) + len(integer) == dim` does not force the
union to cover `{0, ..., dim-1}`. -/
def dupIndexObj : Problem :=
  ⟨3, List.replicate 3 0, List.replicate 3 1, [], [0, 0, 1], "dup", 0, false, false⟩

theorem validate_dupIndexObj : validate dupIndexObj := by
  unfold validate dupIndexObj
  dsimp only
  refine ⟨by simp, by omega, ⟨by decide, by decide⟩, ?_, by simp, by decide, by decide, by decide⟩
  intro i hi'
  have h3 : i < 3 := by omega
  rw [getD_replicate h3, getD_replicate h3]
  norm_num

/-- C1 counterexample: `dupIndexObj` (dim 3, continuous indices
`[0, 0, 1]`, no integer indices) passes every assertion of `validate`,
yet index 2 is in neither index collection, so the union is not
`{0, 1, 2}`: acceptance by `validate` does not imply the partition
property. -/
theorem validate_accepts_without_partition :
    validate dupIndexObj ∧ ¬ partitionsIndexRange dupIndexObj := by
  refine ⟨validate_dupIndexObj, fun h => ?_⟩
  have h2 := h.2.2 2 (by decide)
  revert h2
  decide

/-- C1 amended: for every object `validate` accepts, the index
collections are disjoint and every listed index is in
`{0, ..., dim-1}` — unconditionally; if moreover neither index list
contains a duplicate, the two lists together cover `{0, ..., dim-1}`
exactly (together: `partitionsIndexRange`). -/
theorem validate_partition_of_nodup (p : Problem) (h : validate p) :
    (∀ k : ℤ, ¬(k ∈ p.continuous ∧ k ∈ p.integer)) ∧
    (∀ k : ℤ, (k ∈ p.continuous ∨ k ∈ p.integer) → 0 ≤ k ∧ k < p.dim) ∧
    (p.continuous.Nodup → p.integer.Nodup →
      ∀ k : ℤ, 0 ≤ k ∧ k < p.dim → (k ∈ p.continuous ∨ k ∈ p.integer)) := by
  obtain ⟨-, hdim, -, -, hint, hcont, hinter, hlen⟩ := h
  have hdisj : ∀ k : ℤ, ¬(k ∈ p.continuous ∧ k ∈ p.integer) :=
    not_mem_both_of_inter hinter
  have hrange : ∀ k : ℤ, (k ∈ p.continuous ∨ k ∈ p.integer) → 0 ≤ k ∧ k < p.dim := by
    rintro k (hk | hk)
    · have hne : p.continuous ≠ [] := by
        intro hnil
        rw [hnil] at hk
        simp at hk
      obtain ⟨ha, hb⟩ := hcont hne
      exact ⟨le_trans hb (amin_le hk), lt_of_le_of_lt (le_amax hk) ha⟩
    · have hne : p.integer ≠ [] := by
        intro hnil
        rw [hnil] at hk
        simp at hk
      obtain ⟨ha, hb⟩ := hint hne
      exact ⟨le_trans hb (amin_le hk), lt_of_le_of_lt (le_amax hk) ha⟩
  refine ⟨hdisj, hrange, ?_⟩
  intro hcn hin
  have hdisjF : Disjoint p.continuous.toFinset p.integer.toFinset := by
    rw [Finset.disjoint_left]
    intro a ha hb
    exact hdisj a ⟨List.mem_toFinset.mp ha, List.mem_toFinset.mp hb⟩
  have hsub : p.continuous.toFinset ∪ p.integer.toFinset ⊆ Finset.Ico 0 p.dim := by
    intro a ha
    rcases Finset.mem_union.mp ha with ha' | ha'
    · exact Finset.mem_Ico.mpr (hrange a (Or.inl (List.mem_toFinset.mp ha')))
    · exact Finset.mem_Ico.mpr (hrange a (Or.inr (List.mem_toFinset.mp ha')))
  have hcard : (p.continuous.toFinset ∪ p.integer.toFinset).card = (Finset.Ico 0 p.dim).card := by
    rw [Finset.card_union_of_disjoint hdisjF, List.toFinset_card_of_nodup hcn,
      List.toFinset_card_of_nodup hin, Int.card_Ico]
    omega
  have heq : p.continuous.toFinset ∪ p.integer.toFinset = Finset.Ico 0 p.dim :=
    Finset.eq_of_subset_of_card_le hsub (le_of_eq hcard.symm)
  intro k hk
  have hk' : k ∈ p.continuous.toFinset ∪ p.integer.toFinset := by
    rw [heq]
    exact Finset.mem_Ico.mpr hk
  rcases Finset.mem_union.mp hk' with h' | h'
  · exact Or.inl (List.mem_toFinset.mp h')
  · exact Or.inr (List.mem_toFinset.mp h')

/-- Witness for the amended C1 at a concrete accepted object,
`Sphere.init 3`. -/
theorem validate_partition_of_nodup_witness :
    (∀ k : ℤ, ¬(k ∈ (Sphere.init 3).continuous ∧ k ∈ (Sphere.init 3).integer)) ∧
    (∀ k : ℤ, (k ∈ (Sphere.init 3).continuous ∨ k ∈ (Sphere.init 3).integer) →
      0 ≤ k ∧ k < (Sphere.init 3).dim) ∧
    ((Sphere.init 3).continuous.Nodup → (Sphere.init 3).integer.Nodup →
      ∀ k : ℤ, 0 ≤ k ∧ k < (Sphere.init 3).dim →
        (k ∈ (Sphere.init 3).continuous ∨ k ∈ (Sphere.init 3).integer)) :=
  validate_partition_of_nodup (Sphere.init 3) (validate_Sphere 3 (by norm_num))

/-! ## Claim C2: the dimension-mismatch contract of `objfunction` -/

/-- The contract claim C2 asserts of an evaluation routine with declared
dimension `d`: wrong-length input raises the dimension-mismatch value
error, correct-length input returns a scalar. -/
def dimCheckContract (f : List ℝ → Except String ℝ) (d : ℤ) : Prop :=
  ∀ x : List ℝ, ((x.length : ℤ) ≠ d → f x = .error "Dimension mismatch") ∧
    ((x.length : ℤ) = d → ∃ v : ℝ, f x = .ok v)

theorem hartman3_obj_contract (p : Problem) :
    dimCheckContract (Hartman3.objfunction p) p.dim := by
  intro x
  constructor
  · intro h
    unfold Hartman3.objfunction
    rw [if_pos h]
  · intro h
    unfold Hartman3.objfunction
    rw [if_neg (by omega)]
    exact ⟨_, rfl⟩

theorem rastrigin_obj_contract (p : Problem) :
    dimCheckContract (Rastrigin.objfunction p) p.dim := by
  intro x
  constructor
  · intro h
    unfold Rastrigin.objfunction
    rw [if_pos h]
  · intro h
    unfold Rastrigin.objfunction
    rw [if_neg (by omega)]
    exact ⟨_, rfl⟩

theorem ackley_obj_contract (p : Problem) :
    dimCheckContract (Ackley.objfunction p) p.dim := by
  intro x
  constructor
  · intro h
    unfold Ackley.objfunction
    rw [if_pos h]
  · intro h
    unfold Ackley.objfunction
    rw [if_neg (by omega)]
    exact ⟨_, rfl⟩

theorem griewank_obj_contract (p : Problem) :
    dimCheckContract (Griewank.objfunction p) p.dim := by
  intro x
  constructor
  · intro h
    unfold Griewank.objfunction
    rw [if_pos h]
  · intro h
    unfold Griewank.objfunction
    rw [if_neg (by omega)]
    exact ⟨_, rfl⟩

theorem rosenbrock_obj_contract (p : Problem) :
    dimCheckContract (Rosenbrock.objfunction p) p.dim := by
  intro x
  constructor
  · intro h
    unfold Rosenbrock.objfunction
    rw [if_pos h]
  · intro h
    unfold Rosenbrock.objfunction
    rw [if_neg (by omega)]
    exact ⟨_, rfl⟩

theorem schwefel_obj_contract (p : Problem) :
    dimCheckContract (Schwefel.objfunction p) p.dim := by
  intro x
  constructor
  · intro h
    unfold Schwefel.objfunction
    rw [if_pos h]
  · intro h
    unfold Schwefel.objfunction
    rw [if_neg (by omega)]
    exact ⟨_, rfl⟩

theorem sphere_obj_contract (p : Problem) :
    dimCheckContract (Sphere.objfunction p) p.dim := by
  intro x
  constructor
  · intro h
    unfold Sphere.objfunction
    rw [if_pos h]
  · intro h
    unfold Sphere.objfunction
    rw [if_neg (by omega)]
    exact ⟨_, rfl⟩

theorem exponential_obj_contract (p : Problem) :
    dimCheckContract (Exponential.objfunction p) p.dim := by
  intro x
  constructor
  · intro h
    unfold Exponential.objfunction
    rw [if_pos h]
  · intro h
    unfold Exponential.objfunction
    rw [if_neg (by omega)]
    exact ⟨_, rfl⟩

theorem styblinskitang_obj_contract (p : Problem) :
    dimCheckContract (StyblinskiTang.objfunction p) p.dim := by
  intro x
  constructor
  · intro h
    unfold StyblinskiTang.objfunction
    rw [if_pos h]
  · intro h
    unfold StyblinskiTang.objfunction
    rw [if_neg (by omega)]
    exact ⟨_, rfl⟩

theorem whitley_obj_contract (p : Problem) :
    dimCheckContract (Whitley.objfunction p) p.dim := by
  intro x
  constructor
  · intro h
    unfold Whitley.objfunction
    rw [if_pos h]
  · intro h
    unfold Whitley.objfunction
    rw [if_neg (by omega)]
    exact ⟨_, rfl⟩

theorem keane_obj_contract (p : Problem) :
    dimCheckContract (Keane.objfunction p) p.dim := by
  intro x
  constructor
  · intro h
    unfold Keane.objfunction
    rw [if_pos h]
  · intro h
    unfold Keane.objfunction
    rw [if_neg (by omega)]
    exact ⟨_, rfl⟩

theorem largestpolygon_obj_contract (p : Problem) :
    dimCheckContract (LargestPolygon.objfunction p) p.dim := by
  intro x
  constructor
  · intro h
    unfold LargestPolygon.objfunction
    rw [if_pos h]
  · intro h
    unfold LargestPolygon.objfunction
    rw [if_neg (by omega)]
    exact ⟨_, rfl⟩

theorem linearmi_obj_contract (p : Problem) :
    dimCheckContract (LinearMI.objfunction p) p.dim := by
  intro x
  constructor
  · intro h
    unfold LinearMI.objfunction
    rw [if_pos h]
  · intro h
    unfold LinearMI.objfunction
    rw [if_neg (by omega)]
    exact ⟨_, rfl⟩

theorem quartic_obj_contract (p : Problem) (g : PyRandom) (x : List ℝ) :
    ((x.length : ℤ) ≠ p.dim → Quartic.objfunction p g x = .error "Dimension mismatch") ∧
    ((x.length : ℤ) = p.dim →
      ∃ v : ℝ, ∃ g' : PyRandom, Quartic.objfunction p g x = .ok (v, g')) := by
  constructor
  · intro h
    unfold Quartic.objfunction
    rw [if_pos h]
  · intro h
    unfold Quartic.objfunction
    rw [if_neg (by omega)]
    exact ⟨_, _, rfl⟩

theorem schafferf7_obj_contract (p : Problem) (x : List ℝ) :
    ((x.length : ℤ) ≠ p.dim → SchafferF7.objfunction p x = .error "Dimension mismatch") ∧
    ((x.length : ℤ) = p.dim → p.dim ≠ 1 →
      ∃ v : ℝ, SchafferF7.objfunction p x = .ok v) ∧
    ((x.length : ℤ) = p.dim → p.dim = 1 →
      SchafferF7.objfunction p x = .error "ZeroDivisionError: float division by zero") := by
  refine ⟨?_, ?_, ?_⟩
  · intro h
    unfold SchafferF7.objfunction
    rw [if_pos h]
  · intro h h1
    unfold SchafferF7.objfunction
    rw [if_neg (by omega), if_neg (by omega)]
    exact ⟨_, rfl⟩
  · intro h h1
    unfold SchafferF7.objfunction
    rw [if_neg (by omega), if_pos (by omega)]

/-- C2 counterexample: `SchafferF7(dim=1)` is a constructible problem
instance (it passes `validate`), and on the correct-length input `[0.0]`
its `objfunction` does not return a scalar: the normalizer
`1.0/float(len(x)-1)` divides by zero and raises `ZeroDivisionError`. -/
theorem schafferF7_dim1_correct_length_raises :
    validate (SchafferF7.init 1) ∧
    (([(0 : ℝ)].length : ℤ) = (SchafferF7.init 1).dim) ∧
    SchafferF7.objfunction (SchafferF7.init 1) [0] =
      .error "ZeroDivisionError: float division by zero" := by
  refine ⟨validate_SchafferF7 1 (by omega), rfl, ?_⟩
  exact (schafferf7_obj_contract (SchafferF7.init 1) [0]).2.2 rfl rfl

/-- C2 amended: for every problem type and every permitted constructor
argument, a wrong-length input raises the dimension-mismatch value
error, and a correct-length input returns a scalar — except
`SchafferF7` with `dim = 1`, where every correct-length call raises
`ZeroDivisionError` from the normalizer `1.0/float(len(x)-1)` instead of
returning a scalar (for `SchafferF7` with `dim ≥ 2` the original claim
holds). -/
theorem objfunction_dim_contract (d : ℤ) (_hd : 1 ≤ d) :
    dimCheckContract (Hartman3.objfunction (Hartman3.init d)) (Hartman3.init d).dim ∧
    dimCheckContract (Rastrigin.objfunction (Rastrigin.init d)) (Rastrigin.init d).dim ∧
    dimCheckContract (Ackley.objfunction (Ackley.init d)) (Ackley.init d).dim ∧
    dimCheckContract (Griewank.objfunction (Griewank.init d)) (Griewank.init d).dim ∧
    dimCheckContract (Rosenbrock.objfunction (Rosenbrock.init d)) (Rosenbrock.init d).dim ∧
    dimCheckContract (Schwefel.objfunction (Schwefel.init d)) (Schwefel.init d).dim ∧
    dimCheckContract (Sphere.objfunction (Sphere.init d)) (Sphere.init d).dim ∧
    dimCheckContract (Exponential.objfunction (Exponential.init d)) (Exponential.init d).dim ∧
    dimCheckContract (StyblinskiTang.objfunction (StyblinskiTang.init d))
      (StyblinskiTang.init d).dim ∧
    (∀ (g : PyRandom) (x : List ℝ),
      ((x.length : ℤ) ≠ (Quartic.init d).dim →
        Quartic.objfunction (Quartic.init d) g x = .error "Dimension mismatch") ∧
      ((x.length : ℤ) = (Quartic.init d).dim →
        ∃ v : ℝ, ∃ g' : PyRandom, Quartic.objfunction (Quartic.init d) g x = .ok (v, g'))) ∧
    dimCheckContract (Whitley.objfunction (Whitley.init d)) (Whitley.init d).dim ∧
    (∀ x : List ℝ,
      ((x.length : ℤ) ≠ (SchafferF7.init d).dim →
        SchafferF7.objfunction (SchafferF7.init d) x = .error "Dimension mismatch") ∧
      (2 ≤ d → (x.length : ℤ) = (SchafferF7.init d).dim →
        ∃ v : ℝ, SchafferF7.objfunction (SchafferF7.init d) x = .ok v) ∧
      (d = 1 → (x.length : ℤ) = (SchafferF7.init d).dim →
        SchafferF7.objfunction (SchafferF7.init d) x =
          .error "ZeroDivisionError: float division by zero")) ∧
    dimCheckContract (Keane.objfunction (Keane.init d)) (Keane.init d).dim ∧
    (d % 2 = 0 →
      dimCheckContract (LargestPolygon.objfunction (LargestPolygon.init d))
        (LargestPolygon.init d).dim) ∧
    dimCheckContract (LinearMI.objfunction LinearMI.init) LinearMI.init.dim := by
  refine ⟨hartman3_obj_contract _, rastrigin_obj_contract _, ackley_obj_contract _,
    griewank_obj_contract _, rosenbrock_obj_contract _, schwefel_obj_contract _,
    sphere_obj_contract _, exponential_obj_contract _, styblinskitang_obj_contract _,
    fun g x => quartic_obj_contract _ g x, whitley_obj_contract _, ?_,
    keane_obj_contract _, fun _ => largestpolygon_obj_contract _, linearmi_obj_contract _⟩
  intro x
  obtain ⟨h1, h2, h3⟩ := schafferf7_obj_contract (SchafferF7.init d) x
  exact ⟨h1, fun hd2 hx => h2 hx (by show d ≠ 1; omega), fun hd1 hx => h3 hx hd1⟩

/-- Witness for the amended C2 at the concrete permitted dimension 2. -/
theorem objfunction_dim_contract_witness :
    (1 : ℤ) ≤ 2 ∧
    dimCheckContract (Sphere.objfunction (Sphere.init 2)) (Sphere.init 2).dim :=
  ⟨by norm_num, ((objfunction_dim_contract 2 (by norm_num)).2.2.2.2.2.2.1)⟩

/-! ## Claim C6: `eval_ineq_constraints` and wrong-length inputs -/

/-- C6 counterexample: `Keane(dim=10).eval_ineq_constraints([1.0])` gets
a vector of length 1 ≠ 10, yet does not fail: it returns the residual
vector `[-0.25, -74]`.  The constraint evaluators perform no dimension
check. -/
theorem keane_ineq_accepts_wrong_length :
    (([(1 : ℝ)].length : ℤ) ≠ (Keane.init 10).dim) ∧
    Keane.eval_ineq_constraints (Keane.init 10) [1] = .ok [-0.25, -74] := by
  constructor
  · decide
  · unfold Keane.eval_ineq_constraints
    norm_num [Keane.init]

/-- C6 amended: none of the constraint evaluators checks the input
length against `dim`.  `Keane.eval_ineq_constraints` returns its two
residuals for an input of any length whatsoever; `LinearMI` and
`LargestPolygon` read fixed index positions, so they raise `IndexError`
exactly when the input is shorter than the largest index read
(5 for `LinearMI`, `2*(dim/2)` for `LargestPolygon`) and return a
residual vector for every longer input, including lengths different
from `dim`. -/
theorem eval_ineq_no_dimension_check (dk dp : ℤ) (_hdk : 1 ≤ dk) (_hdp : 1 ≤ dp)
    (_hep : dp % 2 = 0) :
    (∀ x : List ℝ, Keane.eval_ineq_constraints (Keane.init dk) x =
      .ok [0.75 - x.prod, x.sum - 7.5 * (dk : ℝ)]) ∧
    (∀ x : List ℝ,
      (x.length < 5 → LinearMI.eval_ineq_constraints LinearMI.init x =
        .error "IndexError: index out of bounds") ∧
      (5 ≤ x.length → ∃ v : List ℝ, LinearMI.eval_ineq_constraints LinearMI.init x = .ok v)) ∧
    (∀ x : List ℝ,
      (x.length < 2 * (dp / 2).toNat →
        LargestPolygon.eval_ineq_constraints (LargestPolygon.init dp) x =
          .error "IndexError: index out of bounds") ∧
      (2 * (dp / 2).toNat ≤ x.length →
        ∃ v : List ℝ, LargestPolygon.eval_ineq_constraints (LargestPolygon.init dp) x = .ok v)) := by
  refine ⟨fun x => rfl, fun x => ⟨?_, ?_⟩, fun x => ⟨?_, ?_⟩⟩
  · intro h
    unfold LinearMI.eval_ineq_constraints
    rw [if_pos h]
  · intro h
    unfold LinearMI.eval_ineq_constraints
    rw [if_neg (by omega)]
    exact ⟨_, rfl⟩
  · intro h
    simp only [LargestPolygon.eval_ineq_constraints, LargestPolygon.init]
    rw [if_pos h]
  · intro h
    simp only [LargestPolygon.eval_ineq_constraints, LargestPolygon.init]
    rw [if_neg (by omega)]
    exact ⟨_, rfl⟩

/-- Witness for the amended C6 at concrete dimensions 10 (Keane) and 4
(LargestPolygon). -/
theorem eval_ineq_no_dimension_check_witness :
    (1 : ℤ) ≤ 10 ∧ (1 : ℤ) ≤ 4 ∧ (4 : ℤ) % 2 = 0 ∧
    (∀ x : List ℝ, Keane.eval_ineq_constraints (Keane.init 10) x =
      .ok [0.75 - x.prod, x.sum - 7.5 * ((10 : ℤ) : ℝ)]) :=
  ⟨by norm_num, by norm_num, by norm_num,
    (eval_ineq_no_dimension_check 10 4 (by norm_num) (by norm_num) (by norm_num)).1⟩

/-! ## Claim C10: totality of `Keane.objfunction` -/

/-- C10: `Keane.objfunction` is total on every correct-length input: its
denominator `max(1e-10, sqrt(sum_j (j+1)*x[j]**2))` is bounded below by
`1e-10`, so the division never divides by zero; in particular at the
all-zeros vector the sum under the square root is 0, the denominator is
exactly `1e-10`, and the call returns the finite value
`-|(dim - 2)/1e-10|` instead of failing. -/
theorem keane_objfunction_total (d : ℤ) (hd : 1 ≤ d) :
    (∀ x : List ℝ, (x.length : ℤ) = (Keane.init d).dim →
      (∃ v : ℝ, Keane.objfunction (Keane.init d) x = .ok v) ∧
      (1e-10 : ℝ) ≤ max 1e-10
        (Real.sqrt (∑ j ∈ Finset.range x.length, ((j : ℝ) + 1) * x.getD j 0 ^ 2))) ∧
    Keane.objfunction (Keane.init d) (List.replicate d.toNat 0) =
      .ok (-|(((d : ℝ)) - 2) / 1e-10|) := by
  constructor
  · intro x hx
    exact ⟨((keane_obj_contract (Keane.init d)) x).2 hx, le_max_left _ _⟩
  · have hdd : ((d.toNat : ℕ) : ℝ) = (d : ℝ) := by
      exact_mod_cast Int.toNat_of_nonneg (by omega : (0 : ℤ) ≤ d)
    have h1 : ((List.replicate d.toNat (0 : ℝ)).map (fun y => Real.cos y ^ 4)).sum =
        ((d.toNat : ℕ) : ℝ) := by
      rw [List.map_replicate]
      simp
    have h2 : ((List.replicate d.toNat (0 : ℝ)).map (fun y => Real.cos y ^ 2)).prod = 1 := by
      rw [List.map_replicate]
      simp
    have h3 : (∑ j ∈ Finset.range (List.replicate d.toNat (0 : ℝ)).length,
        ((j : ℝ) + 1) * (List.replicate d.toNat (0 : ℝ)).getD j 0 ^ 2) = 0 := by
      apply Finset.sum_eq_zero
      intro j hj
      rw [List.length_replicate] at hj
      rw [getD_replicate (Finset.mem_range.mp hj)]
      ring
    unfold Keane.objfunction
    rw [if_neg (by simp only [Keane.init]; rw [List.length_replicate]; omega)]
    rw [h1, h2, h3, Real.sqrt_zero, max_eq_left (by norm_num : (0 : ℝ) ≤ 1e-10), hdd]
    norm_num

/-- Witness for C10 at the concrete dimension 3. -/
theorem keane_objfunction_total_witness :
    (1 : ℤ) ≤ 3 ∧
    ((∀ x : List ℝ, (x.length : ℤ) = (Keane.init 3).dim →
      (∃ v : ℝ, Keane.objfunction (Keane.init 3) x = .ok v) ∧
      (1e-10 : ℝ) ≤ max 1e-10
        (Real.sqrt (∑ j ∈ Finset.range x.length, ((j : ℝ) + 1) * x.getD j 0 ^ 2))) ∧
    Keane.objfunction (Keane.init 3) (List.replicate (3 : ℤ).toNat 0) =
      .ok (-|(((3 : ℤ) : ℝ) - 2) / 1e-10|)) :=
  ⟨by norm_num, keane_objfunction_total 3 (by norm_num)⟩

/-! ## Claim C7: evaluation and per-instance state -/

/-- C7 counterexample: `Quartic(dim=3).objfunction([0,0,0])` with a
generator at stream position 0 returns the generator advanced to
position 1 — the per-instance RNG state after the call differs from the
state before it, so not every piece of per-instance state is left
unchanged by evaluation. -/
theorem quartic_objfunction_advances_rng :
    Quartic.objfunction (Quartic.init 3) ⟨fun _ => 0, 0⟩ [0, 0, 0] =
      .ok (0, ⟨fun _ => 0, 1⟩) ∧
    (⟨fun _ => 0, 1⟩ : PyRandom) ≠ (⟨fun _ => 0, 0⟩ : PyRandom) := by
  constructor
  · unfold Quartic.objfunction
    rw [if_neg (by decide)]
    simp only [PyRandom.uniform01]
    norm_num [Finset.sum_range_succ]
  · intro h
    have := congrArg PyRandom.pos h
    simp at this

/-- C7 amended: calling `objfunction` (or `eval_ineq_constraints`)
leaves every attribute of the receiver — `dim`, `xlow`, `xup`,
`integer`, `continuous`, `info`, `min`, `constraints` — unchanged for
every problem class, because no method body assigns to the receiver;
but `Quartic.objfunction` additionally draws from the per-instance
random generator, returning it with its stream position advanced by one,
so the RNG's internal state is per-instance state that is *not*
preserved. -/
theorem evaluation_preserves_attributes :
    (∀ (p : Problem) (x : List ℝ),
      (Hartman3.objfunctionS p x).2 = p ∧
      (Rastrigin.objfunctionS p x).2 = p ∧
      (Ackley.objfunctionS p x).2 = p ∧
      (Griewank.objfunctionS p x).2 = p ∧
      (Rosenbrock.objfunctionS p x).2 = p ∧
      (Schwefel.objfunctionS p x).2 = p ∧
      (Sphere.objfunctionS p x).2 = p ∧
      (Exponential.objfunctionS p x).2 = p ∧
      (StyblinskiTang.objfunctionS p x).2 = p ∧
      (Whitley.objfunctionS p x).2 = p ∧
      (SchafferF7.objfunctionS p x).2 = p ∧
      (Keane.objfunctionS p x).2 = p ∧
      (LargestPolygon.objfunctionS p x).2 = p ∧
      (LinearMI.objfunctionS p x).2 = p ∧
      (Keane.evalIneqS p x).2 = p ∧
      (LargestPolygon.evalIneqS p x).2 = p ∧
      (LinearMI.evalIneqS p x).2 = p) ∧
    (∀ (p : Problem) (g : PyRandom) (x : List ℝ),
      (Quartic.objfunctionS p g x).2 = p ∧
      ((x.length : ℤ) = p.dim →
        ∃ v : ℝ, Quartic.objfunction p g x = .ok (v, ⟨g.stream, g.pos + 1⟩))) := by
  constructor
  · intro p x
    exact ⟨rfl, rfl, rfl, rfl, rfl, rfl, rfl, rfl, rfl, rfl, rfl, rfl, rfl, rfl,
      rfl, rfl, rfl⟩
  · intro p g x
    refine ⟨rfl, fun h => ?_⟩
    unfold Quartic.objfunction
    rw [if_neg (by omega)]
    exact ⟨_, rfl⟩

/-- Witness for the amended C7 at `Sphere.init 3`, the input `[0,0,0]`,
and a concrete generator for the `Quartic` clause. -/
theorem evaluation_preserves_attributes_witness :
    (Sphere.objfunctionS (Sphere.init 3) [0, 0, 0]).2 = Sphere.init 3 ∧
    (Quartic.objfunctionS (Quartic.init 3) ⟨fun _ => 0, 0⟩ [0, 0, 0]).2 = Quartic.init 3 :=
  ⟨(evaluation_preserves_attributes.1 (Sphere.init 3) [0, 0, 0]).2.2.2.2.2.2.1,
    (evaluation_preserves_attributes.2 (Quartic.init 3) ⟨fun _ => 0, 0⟩ [0, 0, 0]).1⟩

/-! ## Claim C5: values at the documented optima

For the Hartman part, the four inner sums at the documented optimum
point are the exact rationals 12.393535091668, 0.5392994225046,
3.669862650868 and 0.0360975775446; each exponential is bracketed by
monotonicity to a 7-digit endpoint followed by the Taylor remainder
bound `Real.exp_bound`. -/

theorem expNegE2_lb : (0.5831562 : ℝ) ≤ Real.exp (-(0.5392994225046 : ℝ)) := by
  have hmono : Real.exp (-(0.5392995 : ℝ)) ≤ Real.exp (-(0.5392994225046 : ℝ)) :=
    Real.exp_le_exp.mpr (by norm_num)
  refine le_trans ?_ hmono
  have hb := Real.exp_bound (x := (-(0.5392995 : ℝ))) (n := 8)
    (by rw [abs_le]; constructor <;> norm_num) (by norm_num)
  have hxabs : |(-(0.5392995 : ℝ))| = 0.5392995 := by
    rw [abs_neg]; exact abs_of_pos (by norm_num)
  rw [hxabs] at hb
  simp only [Finset.sum_range_succ, Finset.sum_range_zero, Nat.factorial] at hb
  norm_num at hb
  have h1 := (abs_le.mp hb).1
  linarith

theorem expNegE2_ub : Real.exp (-(0.5392994225046 : ℝ)) ≤ 0.5831568 := by
  have hmono : Real.exp (-(0.5392994225046 : ℝ)) ≤ Real.exp (-(0.5392994 : ℝ)) :=
    Real.exp_le_exp.mpr (by norm_num)
  refine le_trans hmono ?_
  have hb := Real.exp_bound (x := (-(0.5392994 : ℝ))) (n := 8)
    (by rw [abs_le]; constructor <;> norm_num) (by norm_num)
  have hxabs : |(-(0.5392994 : ℝ))| = 0.5392994 := by
    rw [abs_neg]; exact abs_of_pos (by norm_num)
  rw [hxabs] at hb
  simp only [Finset.sum_range_succ, Finset.sum_range_zero, Nat.factorial] at hb
  norm_num at hb
  have h1 := (abs_le.mp hb).2
  linarith

theorem expNegE4_lb : (0.9645461 : ℝ) ≤ Real.exp (-(0.0360975775446 : ℝ)) := by
  have hmono : Real.exp (-(0.0360976 : ℝ)) ≤ Real.exp (-(0.0360975775446 : ℝ)) :=
    Real.exp_le_exp.mpr (by norm_num)
  refine le_trans ?_ hmono
  have hb := Real.exp_bound (x := (-(0.0360976 : ℝ))) (n := 6)
    (by rw [abs_le]; constructor <;> norm_num) (by norm_num)
  have hxabs : |(-(0.0360976 : ℝ))| = 0.0360976 := by
    rw [abs_neg]; exact abs_of_pos (by norm_num)
  rw [hxabs] at hb
  simp only [Finset.sum_range_succ, Finset.sum_range_zero, Nat.factorial] at hb
  norm_num at hb
  have h1 := (abs_le.mp hb).1
  linarith

theorem expNegE4_ub : Real.exp (-(0.0360975775446 : ℝ)) ≤ 0.9645463 := by
  have hmono : Real.exp (-(0.0360975775446 : ℝ)) ≤ Real.exp (-(0.0360975 : ℝ)) :=
    Real.exp_le_exp.mpr (by norm_num)
  refine le_trans hmono ?_
  have hb := Real.exp_bound (x := (-(0.0360975 : ℝ))) (n := 6)
    (by rw [abs_le]; constructor <;> norm_num) (by norm_num)
  have hxabs : |(-(0.0360975 : ℝ))| = 0.0360975 := by
    rw [abs_neg]; exact abs_of_pos (by norm_num)
  rw [hxabs] at hb
  simp only [Finset.sum_range_succ, Finset.sum_range_zero, Nat.factorial] at hb
  norm_num at hb
  have h1 := (abs_le.mp hb).2
  linarith

theorem expNegR3_lb : (0.5117767 : ℝ) ≤ Real.exp (-(0.669862650868 : ℝ)) := by
  have hmono : Real.exp (-(0.6698627 : ℝ)) ≤ Real.exp (-(0.669862650868 : ℝ)) :=
    Real.exp_le_exp.mpr (by norm_num)
  refine le_trans ?_ hmono
  have hb := Real.exp_bound (x := (-(0.6698627 : ℝ))) (n := 8)
    (by rw [abs_le]; constructor <;> norm_num) (by norm_num)
  have hxabs : |(-(0.6698627 : ℝ))| = 0.6698627 := by
    rw [abs_neg]; exact abs_of_pos (by norm_num)
  rw [hxabs] at hb
  simp only [Finset.sum_range_succ, Finset.sum_range_zero, Nat.factorial] at hb
  norm_num at hb
  have h1 := (abs_le.mp hb).1
  linarith

theorem expNegR3_ub : Real.exp (-(0.669862650868 : ℝ)) ≤ 0.5117791 := by
  have hmono : Real.exp (-(0.669862650868 : ℝ)) ≤ Real.exp (-(0.6698626 : ℝ)) :=
    Real.exp_le_exp.mpr (by norm_num)
  refine le_trans hmono ?_
  have hb := Real.exp_bound (x := (-(0.6698626 : ℝ))) (n := 8)
    (by rw [abs_le]; constructor <;> norm_num) (by norm_num)
  have hxabs : |(-(0.6698626 : ℝ))| = 0.6698626 := by
    rw [abs_neg]; exact abs_of_pos (by norm_num)
  rw [hxabs] at hb
  simp only [Finset.sum_range_succ, Finset.sum_range_zero, Nat.factorial] at hb
  norm_num at hb
  have h1 := (abs_le.mp hb).2
  linarith

theorem expNeg3_bounds :
    (0.0497870683 : ℝ) ≤ Real.exp (-(3 : ℝ)) ∧ Real.exp (-(3 : ℝ)) ≤ 0.0497870684 := by
  have hpow : Real.exp (-(3 : ℝ)) = Real.exp (-1) ^ 3 := by
    rw [← Real.exp_nat_mul]
    norm_num
  have hlb : (0.36787944116 : ℝ) ≤ Real.exp (-1) := le_of_lt Real.exp_neg_one_gt_d9
  have hub : Real.exp (-1 : ℝ) ≤ 0.3678794412 := le_of_lt Real.exp_neg_one_lt_d9
  constructor
  · rw [hpow]
    calc (0.0497870683 : ℝ) ≤ 0.36787944116 ^ 3 := by norm_num
      _ ≤ Real.exp (-1) ^ 3 := pow_le_pow_left₀ (by norm_num) hlb 3
  · rw [hpow]
    calc Real.exp (-1 : ℝ) ^ 3 ≤ 0.3678794412 ^ 3 :=
          pow_le_pow_left₀ (le_of_lt (Real.exp_pos _)) hub 3
      _ ≤ 0.0497870684 := by norm_num

theorem expNegE3_bounds :
    (0.0254798 : ℝ) ≤ Real.exp (-(3.669862650868 : ℝ)) ∧
    Real.exp (-(3.669862650868 : ℝ)) ≤ 0.0254800 := by
  have hsplit : Real.exp (-(3.669862650868 : ℝ)) =
      Real.exp (-(3 : ℝ)) * Real.exp (-(0.669862650868 : ℝ)) := by
    rw [← Real.exp_add]
    norm_num
  obtain ⟨h3l, h3u⟩ := expNeg3_bounds
  constructor
  · rw [hsplit]
    calc (0.0254798 : ℝ) ≤ 0.0497870683 * 0.5117767 := by norm_num
      _ ≤ Real.exp (-(3 : ℝ)) * Real.exp (-(0.669862650868 : ℝ)) :=
          mul_le_mul h3l expNegR3_lb (by norm_num) (le_of_lt (Real.exp_pos _))
  · rw [hsplit]
    calc Real.exp (-(3 : ℝ)) * Real.exp (-(0.669862650868 : ℝ)) ≤
        0.0497870684 * 0.5117791 :=
          mul_le_mul h3u expNegR3_ub (le_of_lt (Real.exp_pos _)) (by norm_num)
      _ ≤ 0.0254800 := by norm_num

theorem expNegE1_ub : Real.exp (-(12.393535091668 : ℝ)) ≤ 1e-5 := by
  have hmono : Real.exp (-(12.393535091668 : ℝ)) ≤ Real.exp (-(12 : ℝ)) :=
    Real.exp_le_exp.mpr (by norm_num)
  have hpow : Real.exp (-(12 : ℝ)) = Real.exp (-1) ^ 12 := by
    rw [← Real.exp_nat_mul]
    norm_num
  have hub : Real.exp (-1 : ℝ) ≤ 0.3678794412 := le_of_lt Real.exp_neg_one_lt_d9
  calc Real.exp (-(12.393535091668 : ℝ)) ≤ Real.exp (-(12 : ℝ)) := hmono
  _ = Real.exp (-1) ^ 12 := hpow
  _ ≤ 0.3678794412 ^ 12 := pow_le_pow_left₀ (le_of_lt (Real.exp_pos _)) hub 12
  _ ≤ 1e-5 := by norm_num

/-- C5: `Sphere(dim=3)` at `[0,0,0]` returns exactly 0,
`Rosenbrock(dim=3)` at `[1,1,1]` returns exactly 0, and `Hartman3` at
`[0.114614, 0.555649, 0.852547]` returns a value within `1e-3`
(floating-point tolerance) of the documented minimum `-3.86278`. -/
theorem documented_optima_values :
    Sphere.objfunction (Sphere.init 3) [0, 0, 0] = .ok 0 ∧
    Rosenbrock.objfunction (Rosenbrock.init 3) [1, 1, 1] = .ok 0 ∧
    (∃ v : ℝ, Hartman3.objfunction (Hartman3.init 3) [0.114614, 0.555649, 0.852547] = .ok v ∧
      |v - (-3.86278)| < 1e-3) := by
  refine ⟨?_, ?_, ?_⟩
  · unfold Sphere.objfunction
    rw [if_neg (by decide)]
    norm_num
  · unfold Rosenbrock.objfunction
    rw [if_neg (by decide)]
    norm_num [Finset.sum_range_succ, List.getD_cons_zero, List.getD_cons_succ]
  · refine ⟨-(Real.exp (-(12.393535091668 : ℝ)) + 1.2 * Real.exp (-(0.5392994225046 : ℝ)) +
      3 * Real.exp (-(3.669862650868 : ℝ)) + 3.2 * Real.exp (-(0.0360975775446 : ℝ))), ?_, ?_⟩
    · unfold Hartman3.objfunction
      rw [if_neg (by decide)]
      congr 1
      simp only [hartmanAlpha, hartmanA, hartmanP, Finset.sum_range_succ, Finset.sum_range_zero,
        List.getD_cons_zero, List.getD_cons_succ]
      norm_num
    · have h1 := expNegE1_ub
      have h1p := Real.exp_pos (-(12.393535091668 : ℝ))
      have h2l := expNegE2_lb
      have h2u := expNegE2_ub
      obtain ⟨h3l, h3u⟩ := expNegE3_bounds
      have h4l := expNegE4_lb
      have h4u := expNegE4_ub
      rw [abs_lt]
      constructor
      · linarith
      · linarith

/-! ## Claim C8: layout of the `LargestPolygon` constraint vector

The constraint vector is built imperatively: `np.zeros` then two
assignment loops.  The lemmas below compute the final list produced by a
left fold of `List.set` operations at pairwise-distinct positions. -/

theorem foldl_length_preserved (f : List ℝ → ℕ → List ℝ)
    (hf : ∀ acc i, (f acc i).length = acc.length) :
    ∀ (l : List ℕ) (v : List ℝ), (l.foldl f v).length = v.length := by
  intro l
  induction l with
  | nil => intro v; rfl
  | cons i is ih =>
    intro v
    rw [List.foldl_cons, ih, hf]

theorem foldl_range_set_untouched (g : ℕ → ℕ) (q : ℕ → ℝ) (k : ℕ) :
    ∀ (n : ℕ) (v : List ℝ), (∀ i, i < n → g i ≠ k) →
      ((List.range n).foldl (fun acc i => acc.set (g i) (q i)) v)[k]? = v[k]? := by
  intro n
  induction n with
  | zero => intro v _; rfl
  | succ n ih =>
    intro v h
    rw [List.range_succ, List.foldl_append, List.foldl_cons, List.foldl_nil]
    rw [List.getElem?_set_ne (h n (by omega))]
    exact ih v (fun i hi => h i (by omega))

theorem foldl_range_set_hit (g : ℕ → ℕ) (q : ℕ → ℝ) (b : ℕ) :
    ∀ (n : ℕ) (v : List ℝ), b < n → (∀ i, i < n → g i = g b → i = b) → g b < v.length →
      ((List.range n).foldl (fun acc i => acc.set (g i) (q i)) v)[g b]? = some (q b) := by
  intro n
  induction n with
  | zero =>
    intro v hb
    omega
  | succ n ih =>
    intro v hb hinj hlen
    rw [List.range_succ, List.foldl_append, List.foldl_cons, List.foldl_nil]
    by_cases hbn : b = n
    · subst hbn
      have hlen' : g b <
          ((List.range b).foldl (fun acc i => acc.set (g i) (q i)) v).length := by
        rw [foldl_length_preserved _ (fun acc i => List.length_set acc _ _) _ v]
        exact hlen
      exact List.getElem?_set_eq_of_lt _ hlen'
    · have hb' : b < n := by omega
      have hne : g n ≠ g b := fun hgeq => hbn ((hinj n (by omega) hgeq).symm)
      rw [List.getElem?_set_ne hne]
      exact ih v hb' (fun i hi hgi => hinj i (by omega) hgi) hlen

theorem pos_first_lt (m i j : ℕ) (hi : i < m) (hj : j < m) : i * m + j < m ^ 2 := by
  calc i * m + j < i * m + m := Nat.add_lt_add_left hj _
    _ = (i + 1) * m := (Nat.succ_mul i m).symm
    _ ≤ m * m := Nat.mul_le_mul_right m hi
    _ = m ^ 2 := (pow_two m).symm

theorem sq_le_len (m : ℕ) (hm : 1 ≤ m) : m ^ 2 ≤ m ^ 2 + m - 1 := by
  rw [Nat.add_sub_assoc hm]
  exact Nat.le_add_right _ _

theorem pos_first_lt_len (m i j : ℕ) (hm : 1 ≤ m) (hi : i < m) (hj : j < m) :
    i * m + j < m ^ 2 + m - 1 :=
  lt_of_lt_of_le (pos_first_lt m i j hi hj) (sq_le_len m hm)

theorem pos_second_lt_len (m i : ℕ) (hi : i < m - 1) : m ^ 2 + i < m ^ 2 + m - 1 := by
  have hm : 1 ≤ m := by omega
  rw [Nat.add_sub_assoc hm]
  exact Nat.add_lt_add_left (by omega) _

theorem pos_first_ne (m n i0 j j0 : ℕ) (hi0 : i0 < n) (hj0 : j0 < m) :
    n * m + j ≠ i0 * m + j0 := by
  have h1 : i0 * m + j0 < (i0 + 1) * m := by
    rw [Nat.succ_mul]
    exact Nat.add_lt_add_left hj0 _
  have h2 : (i0 + 1) * m ≤ n * m := Nat.mul_le_mul_right m hi0
  have h4 : i0 * m + j0 < n * m + j :=
    lt_of_lt_of_le (lt_of_lt_of_le h1 h2) (Nat.le_add_right _ _)
  exact ne_of_gt h4

theorem pos_second_ne_first (m i i0 j0 : ℕ) (hi0 : i0 < m) (hj0 : j0 < m) :
    m ^ 2 + i ≠ i0 * m + j0 := by
  have h2 : i0 * m + j0 < m ^ 2 + i :=
    lt_of_lt_of_le (pos_first_lt m i0 j0 hi0 hj0) (Nat.le_add_right _ _)
  exact ne_of_gt h2

theorem outerFold_get (m : ℕ) (F : ℕ → ℕ → ℝ) (i0 j0 : ℕ) (hj0 : j0 < m) :
    ∀ (n : ℕ) (v : List ℝ), i0 < n → n ≤ m → v.length = m ^ 2 + m - 1 →
      ((List.range n).foldl (fun acc i =>
          (List.range m).foldl (fun acc2 j => acc2.set (i * m + j) (F i j)) acc)
        v)[i0 * m + j0]? = some (F i0 j0) := by
  intro n
  induction n with
  | zero =>
    intro v h _ _
    omega
  | succ n ih =>
    intro v hi0 hnm hv
    rw [List.range_succ, List.foldl_append, List.foldl_cons, List.foldl_nil]
    have hm : 1 ≤ m := by omega
    by_cases hin : i0 = n
    · subst hin
      have hplen : (i0 * m + j0) <
          ((List.range i0).foldl (fun acc i =>
            (List.range m).foldl (fun acc2 j => acc2.set (i * m + j) (F i j)) acc) v).length := by
        rw [foldl_length_preserved _
          (fun acc i => foldl_length_preserved _ (fun a j => List.length_set a _ _) _ acc) _ v, hv]
        exact pos_first_lt_len m i0 j0 hm (by omega) hj0
      exact foldl_range_set_hit (fun j => i0 * m + j) (fun j => F i0 j) j0 m _ hj0
        (fun j hj hgj => Nat.add_left_cancel hgj) hplen
    · have hu := foldl_range_set_untouched (fun j => n * m + j) (fun j => F n j)
        (i0 * m + j0) m
        ((List.range n).foldl (fun acc i =>
          (List.range m).foldl (fun acc2 j => acc2.set (i * m + j) (F i j)) acc) v)
        (fun j hj => pos_first_ne m n i0 j j0 (by omega) hj0)
      exact hu.trans (ih v (by omega) (by omega) hv)

theorem polygonVec_length (m : ℕ) (F : ℕ → ℕ → ℝ) (G : ℕ → ℝ) :
    ((List.range (m - 1)).foldl (fun acc i => acc.set (m ^ 2 + i) (G i))
      ((List.range m).foldl (fun acc i =>
          (List.range m).foldl (fun acc2 j => acc2.set (i * m + j) (F i j)) acc)
        (List.replicate (m ^ 2 + m - 1) (0 : ℝ)))).length = m ^ 2 + m - 1 := by
  rw [foldl_length_preserved _ (fun acc i => List.length_set acc _ _) _ _,
    foldl_length_preserved _
      (fun acc i => foldl_length_preserved _ (fun a j => List.length_set a _ _) _ acc) _ _,
    List.length_replicate]

theorem polygonVec_first (m : ℕ) (F : ℕ → ℕ → ℝ) (G : ℕ → ℝ)
    (i0 j0 : ℕ) (hi0 : i0 < m) (hj0 : j0 < m) :
    ((List.range (m - 1)).foldl (fun acc i => acc.set (m ^ 2 + i) (G i))
      ((List.range m).foldl (fun acc i =>
          (List.range m).foldl (fun acc2 j => acc2.set (i * m + j) (F i j)) acc)
        (List.replicate (m ^ 2 + m - 1) (0 : ℝ))))[i0 * m + j0]? = some (F i0 j0) := by
  have hu := foldl_range_set_untouched (fun i => m ^ 2 + i) G (i0 * m + j0) (m - 1)
    ((List.range m).foldl (fun acc i =>
        (List.range m).foldl (fun acc2 j => acc2.set (i * m + j) (F i j)) acc)
      (List.replicate (m ^ 2 + m - 1) (0 : ℝ)))
    (fun i _ => pos_second_ne_first m i i0 j0 hi0 hj0)
  exact hu.trans (outerFold_get m F i0 j0 hj0 m _ hi0 (le_refl m)
    (List.length_replicate _ _))

theorem polygonVec_second (m : ℕ) (F : ℕ → ℕ → ℝ) (G : ℕ → ℝ)
    (i0 : ℕ) (hi0 : i0 < m - 1) :
    ((List.range (m - 1)).foldl (fun acc i => acc.set (m ^ 2 + i) (G i))
      ((List.range m).foldl (fun acc i =>
          (List.range m).foldl (fun acc2 j => acc2.set (i * m + j) (F i j)) acc)
        (List.replicate (m ^ 2 + m - 1) (0 : ℝ))))[m ^ 2 + i0]? = some (G i0) := by
  apply foldl_range_set_hit (fun i => m ^ 2 + i) G i0 (m - 1) _ hi0
    (fun i _ hgi => Nat.add_left_cancel hgi)
  rw [foldl_length_preserved _
    (fun acc i => foldl_length_preserved _ (fun a j => List.length_set a _ _) _ acc) _ _,
    List.length_replicate]
  exact pos_second_lt_len m i0 hi0

/-- C8: for every even `dim ≥ 2` and input of length `dim`,
`LargestPolygon.eval_ineq_constraints` returns a vector of length
`(dim/2)^2 + dim/2 - 1` (`dim/2` is floor division); entry
`i*(dim/2) + j` (for `i, j < dim/2`) is the pairwise diameter residual
`x[i]^2 + x[j]^2 - 2*x[i]*x[j]*cos(x[dim/2+i] - x[dim/2+j]) - 1`, and
entry `(dim/2)^2 + i` (for `i < dim/2 - 1`) is the angle-ordering
residual `x[dim/2+i] - x[dim/2+i+1]`. -/
theorem largestPolygon_constraint_layout (d : ℤ) (hd : 2 ≤ d) (he : d % 2 = 0)
    (x : List ℝ) (hx : (x.length : ℤ) = d) :
    ∃ v : List ℝ,
      LargestPolygon.eval_ineq_constraints (LargestPolygon.init d) x = .ok v ∧
      v.length = (d / 2).toNat ^ 2 + (d / 2).toNat - 1 ∧
      (∀ i j : ℕ, i < (d / 2).toNat → j < (d / 2).toNat →
        v.getD (i * (d / 2).toNat + j) 0 =
          x.getD i 0 ^ 2 + x.getD j 0 ^ 2 -
            2 * x.getD i 0 * x.getD j 0 *
              Real.cos (x.getD ((d / 2).toNat + i) 0 - x.getD ((d / 2).toNat + j) 0) - 1) ∧
      (∀ i : ℕ, i < (d / 2).toNat - 1 →
        v.getD ((d / 2).toNat ^ 2 + i) 0 =
          x.getD ((d / 2).toNat + i) 0 - x.getD ((d / 2).toNat + i + 1) 0) := by
  set m : ℕ := (d / 2).toNat with hmdef
  have hm2 : d = 2 * (m : ℤ) := by omega
  have hm1 : 1 ≤ m := by omega
  have hpos : ∀ i : ℕ, ((i : ℤ) * d / 2).toNat = i * m := by
    intro i
    rw [hm2]
    have l1 : (i : ℤ) * (2 * (m : ℤ)) = 2 * ((i * m : ℕ) : ℤ) := by push_cast; ring
    rw [l1, Int.mul_ediv_cancel_left _ (by norm_num)]
    exact Int.toNat_natCast _
  have hlen2 : ¬(x.length < 2 * m) := by omega
  simp only [LargestPolygon.eval_ineq_constraints, LargestPolygon.init]
  rw [if_neg hlen2]
  simp only [hpos]
  refine ⟨_, rfl, ?_, ?_, ?_⟩
  · exact polygonVec_length m _ _
  · intro i j hi hj
    rw [List.getD_eq_getElem?_getD, polygonVec_first m _ _ i j hi hj]
    norm_num
  · intro i hi
    rw [List.getD_eq_getElem?_getD, polygonVec_second m _ _ i hi]
    rfl

/-- Witness for C8 at `dim = 4` and the input `[1, 1, 1, 1]`. -/
theorem largestPolygon_constraint_layout_witness :
    (2 : ℤ) ≤ 4 ∧ (4 : ℤ) % 2 = 0 ∧ (([(1 : ℝ), 1, 1, 1].length : ℤ) = 4) ∧
    (∃ v : List ℝ,
      LargestPolygon.eval_ineq_constraints (LargestPolygon.init 4) [1, 1, 1, 1] = .ok v ∧
      v.length = ((4 : ℤ) / 2).toNat ^ 2 + ((4 : ℤ) / 2).toNat - 1 ∧
      (∀ i j : ℕ, i < ((4 : ℤ) / 2).toNat → j < ((4 : ℤ) / 2).toNat →
        v.getD (i * ((4 : ℤ) / 2).toNat + j) 0 =
          ([(1 : ℝ), 1, 1, 1] : List ℝ).getD i 0 ^ 2 +
            ([(1 : ℝ), 1, 1, 1] : List ℝ).getD j 0 ^ 2 -
            2 * ([(1 : ℝ), 1, 1, 1] : List ℝ).getD i 0 *
              ([(1 : ℝ), 1, 1, 1] : List ℝ).getD j 0 *
              Real.cos (([(1 : ℝ), 1, 1, 1] : List ℝ).getD (((4 : ℤ) / 2).toNat + i) 0 -
                ([(1 : ℝ), 1, 1, 1] : List ℝ).getD (((4 : ℤ) / 2).toNat + j) 0) - 1) ∧
      (∀ i : ℕ, i < ((4 : ℤ) / 2).toNat - 1 →
        v.getD (((4 : ℤ) / 2).toNat ^ 2 + i) 0 =
          ([(1 : ℝ), 1, 1, 1] : List ℝ).getD (((4 : ℤ) / 2).toNat + i) 0 -
            ([(1 : ℝ), 1, 1, 1] : List ℝ).getD (((4 : ℤ) / 2).toNat + i + 1) 0)) :=
  ⟨by norm_num, by norm_num, by norm_num,
    largestPolygon_constraint_layout 4 (by norm_num) (by norm_num) [1, 1, 1, 1] (by norm_num)⟩
